import Mathlib

/-
Verification of the TaskService client (src/services/task.service.ts) of
node-vikunja: a shallow embedding of the service's endpoint methods, of the
three-attempt authentication-retry cascade used by the assignee and label
mutating endpoints, and of the attachment-upload path, together with theorems
settling the specification's claims about them.

The shared request primitive and the error-class hierarchy live in
src/core/service.js and src/core/request.js, which are not part of the
examined sources; where their behaviour decides a claim they are modelled
from the specification (sections 6 and 7) and marked as such.
-/

namespace NodeVikunja

/-- Error classes of the client. `vikunja` is the base VikunjaError,
`vikunjaAuth` is VikunjaAuthenticationError (a subclass of VikunjaError),
`labelAuth` and `assigneeAuth` are LabelAuthenticationError and
AssigneeAuthenticationError (subclasses of VikunjaAuthenticationError), and
`generic` is any thrown value that is not a VikunjaError (e.g. a TypeError
from fetch or a JSON parse error). -/
inductive ErrClass where
  | vikunja
  | vikunjaAuth
  | labelAuth
  | assigneeAuth
  | generic
deriving DecidableEq

/-- A parsed JSON body, abstracted to the one field the service inspects
(`message`) plus an opaque remainder standing for all other fields. -/
structure JsonBody where
  message : Option String
  rest : String
deriving DecidableEq

/-- A thrown error value. Mirrors the fields carried by VikunjaError per the
spec: message, endpoint, method, statusCode and the raw response body. For a
`generic` error only `message` is meaningful. -/
structure VErr where
  cls : ErrClass
  message : String
  endpoint : String
  method : String
  statusCode : Nat
  response : JsonBody
deriving DecidableEq

/-- JavaScript `error instanceof VikunjaError`: true for the whole
VikunjaError hierarchy, false for generic errors. -/
def isVikunjaError (e : VErr) : Bool :=
  match e.cls with
  | ErrClass.generic => false
  | _ => true

/-- JavaScript `error instanceof VikunjaAuthenticationError`: true for
VikunjaAuthenticationError and its two subclasses. -/
def isVikunjaAuthenticationError (e : VErr) : Bool :=
  match e.cls with
  | ErrClass.vikunjaAuth => true
  | ErrClass.labelAuth => true
  | ErrClass.assigneeAuth => true
  | _ => false

/-- Modelled from the spec: the shared request primitive (src/core, absent
from the examined sources) raises "a typed error carrying message, endpoint,
method, statusCode, response on any non-2xx status or network failure, with a
distinguished authentication-error subtype when statusCode is 401/403"
(spec section 6; section 7 defines AuthenticationError as exactly the
status-401/403 subtype of ApiError). An error produced by the primitive is
therefore a VikunjaError, and it is an instance of
VikunjaAuthenticationError exactly when its status is 401 or 403. -/
def primitiveError (e : VErr) : Prop :=
  isVikunjaError e = true ∧
    ((e.statusCode = 401 ∨ e.statusCode = 403) ↔ isVikunjaAuthenticationError e = true)

instance (e : VErr) : Decidable (primitiveError e) := by
  unfold primitiveError; infer_instance

/-- The retry condition appearing verbatim at every level of every cascade in
task.service.ts: `error instanceof VikunjaError and (error.statusCode === 401
or error.statusCode === 403)`. -/
def authRetryCond (e : VErr) : Bool :=
  isVikunjaError e && (e.statusCode == 401 || e.statusCode == 403)

/-- A request issued through the shared request primitive by a retried
method: path, HTTP method, optional JSON body (of the operation's payload
type `β`), and the `headers` entry of the options argument (`none` when no
options/headers are passed, so the primitive applies its default bearer
header). -/
structure ReqRecord (β : Type) where
  path : String
  method : String
  body : Option β
  headersOpt : Option (List (String × String))
deriving DecidableEq

/-- JavaScript `this.token || ''` where `this.token` is a possibly-undefined
string: yields the empty string when the token is undefined (and is the
identity on any string, the empty string being its own fallback). -/
def tokenOrEmpty : Option String → String
  | none => ""
  | some t => if t = "" then "" else t

/-- JavaScript template-literal interpolation of a possibly-undefined string,
as in the source's backtick string Bearer-dollar-this.token: an undefined
token interpolates to the literal text "undefined". -/
def interpToken : Option String → String
  | none => "undefined"
  | some t => t

/-- Message preamble of AssigneeAuthenticationError as concatenated in
task.service.ts. -/
def assigneeAuthPreamble : String :=
  "Assignee operation failed due to authentication issue. " ++
  "This may occur even with valid tokens. " ++
  "Original error: "

/-- Message preamble of LabelAuthenticationError as concatenated in
task.service.ts. -/
def labelAuthPreamble : String :=
  "Label operation failed due to authentication issue. " ++
  "This may occur even with valid tokens. " ++
  "Original error: "

/-- The AssigneeAuthenticationError constructed from the final underlying
error, copying its endpoint, method, statusCode and response. -/
def mkAssigneeAuthError (finalError : VErr) : VErr :=
  { cls := ErrClass.assigneeAuth
    message := assigneeAuthPreamble ++ finalError.message
    endpoint := finalError.endpoint
    method := finalError.method
    statusCode := finalError.statusCode
    response := finalError.response }

/-- The LabelAuthenticationError constructed from the final underlying error,
copying its endpoint, method, statusCode and response. -/
def mkLabelAuthError (finalError : VErr) : VErr :=
  { cls := ErrClass.labelAuth
    message := labelAuthPreamble ++ finalError.message
    endpoint := finalError.endpoint
    method := finalError.method
    statusCode := finalError.statusCode
    response := finalError.response }

/-- The three-attempt retry routine replicated verbatim in the six retried
methods of task.service.ts (assignUserToTask, bulkAssignUsersToTask,
removeUserFromTask, updateTaskLabels, addLabelToTask, removeLabelFromTask).
`req1`, `req2`, `req3` are the three requests the method's source builds
(identical path/method/body, differing headers), `finalCheck` is the
method's test on the attempt-3 error (`instanceof VikunjaAuthenticationError`
for the assignee methods and updateTaskLabels; the plain
VikunjaError-and-401/403 test for addLabelToTask and removeLabelFromTask),
and `mkErr` builds the method's dedicated error. `respond` is the
environment: the outcome the shared request primitive produces for each
issued request. Returns the method's outcome together with the transcript of
requests issued, in order. -/
def cascade {β α : Type} (req1 req2 req3 : ReqRecord β)
    (finalCheck : VErr → Bool) (mkErr : VErr → VErr)
    (respond : ReqRecord β → Except VErr α) :
    Except VErr α × List (ReqRecord β) :=
  match respond req1 with
  | Except.ok result => (Except.ok result, [req1])
  | Except.error error =>
    if authRetryCond error then
      match respond req2 with
      | Except.ok result => (Except.ok result, [req1, req2])
      | Except.error retryError =>
        if authRetryCond retryError then
          match respond req3 with
          | Except.ok result => (Except.ok result, [req1, req2, req3])
          | Except.error finalError =>
            if finalCheck finalError then
              (Except.error (mkErr finalError), [req1, req2, req3])
            else
              (Except.error finalError, [req1, req2, req3])
        else
          (Except.error retryError, [req1, req2])
    else
      (Except.error error, [req1])

/-- Body of assignUserToTask's request: the object literal with the single
field user_id. -/
structure UserIdBody where
  user_id : Int
deriving DecidableEq

/-- Attempt-1 request of assignUserToTask: PUT /tasks/taskId/assignees with
body user_id, no options. -/
def assignReq1 (taskId userId : Int) : ReqRecord UserIdBody :=
  { path := "/tasks/" ++ toString taskId ++ "/assignees"
    method := "PUT"
    body := some { user_id := userId }
    headersOpt := none }

/-- Attempt-2 request of assignUserToTask: same path/method/body, headers
option carrying the raw token under X-API-Token. -/
def assignReq2 (tok : Option String) (taskId userId : Int) : ReqRecord UserIdBody :=
  { path := "/tasks/" ++ toString taskId ++ "/assignees"
    method := "PUT"
    body := some { user_id := userId }
    headersOpt := some [("X-API-Token", tokenOrEmpty tok)] }

/-- Attempt-3 request of assignUserToTask: same path/method/body, headers
option carrying the bearer-prefixed token under lowercase authorization. -/
def assignReq3 (tok : Option String) (taskId userId : Int) : ReqRecord UserIdBody :=
  { path := "/tasks/" ++ toString taskId ++ "/assignees"
    method := "PUT"
    body := some { user_id := userId }
    headersOpt := some [("authorization", "Bearer " ++ interpToken tok)] }

/-- assignUserToTask (task.service.ts lines 149-195): the retry cascade on
PUT /tasks/taskId/assignees with the attempt-3 error tested by `instanceof
VikunjaAuthenticationError` and converted to AssigneeAuthenticationError. -/
def assignUserToTask {α : Type} (tok : Option String) (taskId userId : Int)
    (respond : ReqRecord UserIdBody → Except VErr α) :
    Except VErr α × List (ReqRecord UserIdBody) :=
  cascade (assignReq1 taskId userId) (assignReq2 tok taskId userId)
    (assignReq3 tok taskId userId) isVikunjaAuthenticationError mkAssigneeAuthError respond

/-- Attempt-1 request of bulkAssignUsersToTask: POST
/tasks/taskId/assignees/bulk with the caller's BulkAssignees payload (opaque
type `β`), no options. -/
def bulkAssignReq1 {β : Type} (taskId : Int) (assignees : β) : ReqRecord β :=
  { path := "/tasks/" ++ toString taskId ++ "/assignees/bulk"
    method := "POST"
    body := some assignees
    headersOpt := none }

/-- Attempt-2 request of bulkAssignUsersToTask. -/
def bulkAssignReq2 {β : Type} (tok : Option String) (taskId : Int) (assignees : β) :
    ReqRecord β :=
  { path := "/tasks/" ++ toString taskId ++ "/assignees/bulk"
    method := "POST"
    body := some assignees
    headersOpt := some [("X-API-Token", tokenOrEmpty tok)] }

/-- Attempt-3 request of bulkAssignUsersToTask. -/
def bulkAssignReq3 {β : Type} (tok : Option String) (taskId : Int) (assignees : β) :
    ReqRecord β :=
  { path := "/tasks/" ++ toString taskId ++ "/assignees/bulk"
    method := "POST"
    body := some assignees
    headersOpt := some [("authorization", "Bearer " ++ interpToken tok)] }

/-- bulkAssignUsersToTask (task.service.ts lines 208-254): the retry cascade
on POST /tasks/taskId/assignees/bulk, attempt-3 error tested by `instanceof
VikunjaAuthenticationError`, converted to AssigneeAuthenticationError. -/
def bulkAssignUsersToTask {β α : Type} (tok : Option String) (taskId : Int) (assignees : β)
    (respond : ReqRecord β → Except VErr α) : Except VErr α × List (ReqRecord β) :=
  cascade (bulkAssignReq1 taskId assignees) (bulkAssignReq2 tok taskId assignees)
    (bulkAssignReq3 tok taskId assignees) isVikunjaAuthenticationError mkAssigneeAuthError
    respond

/-- Attempt-1 request of removeUserFromTask: DELETE
/tasks/taskId/assignees/userId, no body, no options. -/
def removeUserReq1 (taskId userId : Int) : ReqRecord Unit :=
  { path := "/tasks/" ++ toString taskId ++ "/assignees/" ++ toString userId
    method := "DELETE"
    body := none
    headersOpt := none }

/-- Attempt-2 request of removeUserFromTask. -/
def removeUserReq2 (tok : Option String) (taskId userId : Int) : ReqRecord Unit :=
  { path := "/tasks/" ++ toString taskId ++ "/assignees/" ++ toString userId
    method := "DELETE"
    body := none
    headersOpt := some [("X-API-Token", tokenOrEmpty tok)] }

/-- Attempt-3 request of removeUserFromTask. -/
def removeUserReq3 (tok : Option String) (taskId userId : Int) : ReqRecord Unit :=
  { path := "/tasks/" ++ toString taskId ++ "/assignees/" ++ toString userId
    method := "DELETE"
    body := none
    headersOpt := some [("authorization", "Bearer " ++ interpToken tok)] }

/-- removeUserFromTask (task.service.ts lines 267-313): the retry cascade on
DELETE /tasks/taskId/assignees/userId, attempt-3 error tested by `instanceof
VikunjaAuthenticationError`, converted to AssigneeAuthenticationError. -/
def removeUserFromTask {α : Type} (tok : Option String) (taskId userId : Int)
    (respond : ReqRecord Unit → Except VErr α) : Except VErr α × List (ReqRecord Unit) :=
  cascade (removeUserReq1 taskId userId) (removeUserReq2 tok taskId userId)
    (removeUserReq3 tok taskId userId) isVikunjaAuthenticationError mkAssigneeAuthError
    respond

/-- Attempt-1 request of updateTaskLabels: POST /tasks/taskId/labels/bulk
with the caller's LabelTaskBulk payload (opaque type `β`), no options. -/
def updateLabelsReq1 {β : Type} (taskId : Int) (labels : β) : ReqRecord β :=
  { path := "/tasks/" ++ toString taskId ++ "/labels/bulk"
    method := "POST"
    body := some labels
    headersOpt := none }

/-- Attempt-2 request of updateTaskLabels. -/
def updateLabelsReq2 {β : Type} (tok : Option String) (taskId : Int) (labels : β) :
    ReqRecord β :=
  { path := "/tasks/" ++ toString taskId ++ "/labels/bulk"
    method := "POST"
    body := some labels
    headersOpt := some [("X-API-Token", tokenOrEmpty tok)] }

/-- Attempt-3 request of updateTaskLabels. -/
def updateLabelsReq3 {β : Type} (tok : Option String) (taskId : Int) (labels : β) :
    ReqRecord β :=
  { path := "/tasks/" ++ toString taskId ++ "/labels/bulk"
    method := "POST"
    body := some labels
    headersOpt := some [("authorization", "Bearer " ++ interpToken tok)] }

/-- updateTaskLabels (task.service.ts lines 388-434): the retry cascade on
POST /tasks/taskId/labels/bulk, attempt-3 error tested by `instanceof
VikunjaAuthenticationError`, converted to LabelAuthenticationError. -/
def updateTaskLabels {β α : Type} (tok : Option String) (taskId : Int) (labels : β)
    (respond : ReqRecord β → Except VErr α) : Except VErr α × List (ReqRecord β) :=
  cascade (updateLabelsReq1 taskId labels) (updateLabelsReq2 tok taskId labels)
    (updateLabelsReq3 tok taskId labels) isVikunjaAuthenticationError mkLabelAuthError
    respond

/-- Attempt-1 request of addLabelToTask: PUT /tasks/taskId/labels with the
caller's TaskLabel payload (opaque type `β`), no options. -/
def addLabelReq1 {β : Type} (taskId : Int) (labelTask : β) : ReqRecord β :=
  { path := "/tasks/" ++ toString taskId ++ "/labels"
    method := "PUT"
    body := some labelTask
    headersOpt := none }

/-- Attempt-2 request of addLabelToTask. -/
def addLabelReq2 {β : Type} (tok : Option String) (taskId : Int) (labelTask : β) :
    ReqRecord β :=
  { path := "/tasks/" ++ toString taskId ++ "/labels"
    method := "PUT"
    body := some labelTask
    headersOpt := some [("X-API-Token", tokenOrEmpty tok)] }

/-- Attempt-3 request of addLabelToTask. -/
def addLabelReq3 {β : Type} (tok : Option String) (taskId : Int) (labelTask : β) :
    ReqRecord β :=
  { path := "/tasks/" ++ toString taskId ++ "/labels"
    method := "PUT"
    body := some labelTask
    headersOpt := some [("authorization", "Bearer " ++ interpToken tok)] }

/-- addLabelToTask (task.service.ts lines 634-668): the retry cascade on PUT
/tasks/taskId/labels; unlike the assignee methods its attempt-3 error is
tested by the plain VikunjaError-and-401/403 condition (the same test as the
retry condition), then converted to LabelAuthenticationError. -/
def addLabelToTask {β α : Type} (tok : Option String) (taskId : Int) (labelTask : β)
    (respond : ReqRecord β → Except VErr α) : Except VErr α × List (ReqRecord β) :=
  cascade (addLabelReq1 taskId labelTask) (addLabelReq2 tok taskId labelTask)
    (addLabelReq3 tok taskId labelTask) authRetryCond mkLabelAuthError respond

/-- Attempt-1 request of removeLabelFromTask: DELETE
/tasks/taskId/labels/labelId, no body, no options. -/
def removeLabelReq1 (taskId labelId : Int) : ReqRecord Unit :=
  { path := "/tasks/" ++ toString taskId ++ "/labels/" ++ toString labelId
    method := "DELETE"
    body := none
    headersOpt := none }

/-- Attempt-2 request of removeLabelFromTask. -/
def removeLabelReq2 (tok : Option String) (taskId labelId : Int) : ReqRecord Unit :=
  { path := "/tasks/" ++ toString taskId ++ "/labels/" ++ toString labelId
    method := "DELETE"
    body := none
    headersOpt := some [("X-API-Token", tokenOrEmpty tok)] }

/-- Attempt-3 request of removeLabelFromTask. -/
def removeLabelReq3 (tok : Option String) (taskId labelId : Int) : ReqRecord Unit :=
  { path := "/tasks/" ++ toString taskId ++ "/labels/" ++ toString labelId
    method := "DELETE"
    body := none
    headersOpt := some [("authorization", "Bearer " ++ interpToken tok)] }

/-- removeLabelFromTask (task.service.ts lines 681-715): the retry cascade on
DELETE /tasks/taskId/labels/labelId; its attempt-3 error is tested by the
plain VikunjaError-and-401/403 condition, then converted to
LabelAuthenticationError. -/
def removeLabelFromTask {α : Type} (tok : Option String) (taskId labelId : Int)
    (respond : ReqRecord Unit → Except VErr α) : Except VErr α × List (ReqRecord Unit) :=
  cascade (removeLabelReq1 taskId labelId) (removeLabelReq2 tok taskId labelId)
    (removeLabelReq3 tok taskId labelId) authRetryCond mkLabelAuthError respond

/-- A single request issued by a non-retried method through the shared
request primitive: path, HTTP method, optional body (payload type `β`) and
optional query-parameter struct (type `γ`). Each non-retried method of
task.service.ts is a single call of this primitive, so it issues exactly one
network request. -/
structure SimpleReq (β γ : Type) where
  path : String
  method : String
  body : Option β
  params : Option γ
deriving DecidableEq

/-- Query parameters accepted by the task-list endpoints
(GetTasksParams): pagination, search, sorting and filtering, all optional. -/
structure GetTasksParams where
  page : Option Int
  per_page : Option Int
  s : Option String
  sort_by : Option String
  order_by : Option String
  filter : Option String
  filter_include_nulls : Option Bool
deriving DecidableEq

/-- Pagination and search parameters of getTaskAssignees. -/
structure AssigneeListParams where
  page : Option Int
  per_page : Option Int
  s : Option String
deriving DecidableEq

/-- Pagination parameters of getTaskAttachments. -/
structure AttachmentListParams where
  page : Option Int
  per_page : Option Int
deriving DecidableEq

/-- getAllTasks (task.service.ts lines 38-42): one GET request to /tasks with
the caller's parameters passed through. -/
def getAllTasks (params : Option GetTasksParams) : SimpleReq Unit GetTasksParams :=
  { path := "/tasks", method := "GET", body := none, params := params }

/-- getProjectTasks: one GET request to /projects/projectId/tasks. -/
def getProjectTasks (projectId : Int) (params : Option GetTasksParams) :
    SimpleReq Unit GetTasksParams :=
  { path := "/projects/" ++ toString projectId ++ "/tasks", method := "GET"
    body := none, params := params }

/-- createTask: one PUT request to /projects/projectId/tasks with the task
payload. -/
def createTask {β : Type} (projectId : Int) (task : β) : SimpleReq β Unit :=
  { path := "/projects/" ++ toString projectId ++ "/tasks", method := "PUT"
    body := some task, params := none }

/-- getTask: one GET request to /tasks/taskId. -/
def getTask (taskId : Int) : SimpleReq Unit Unit :=
  { path := "/tasks/" ++ toString taskId, method := "GET", body := none, params := none }

/-- updateTask: one POST request to /tasks/taskId with the task payload. -/
def updateTask {β : Type} (taskId : Int) (task : β) : SimpleReq β Unit :=
  { path := "/tasks/" ++ toString taskId, method := "POST", body := some task
    params := none }

/-- deleteTask: one DELETE request to /tasks/taskId. -/
def deleteTask (taskId : Int) : SimpleReq Unit Unit :=
  { path := "/tasks/" ++ toString taskId, method := "DELETE", body := none, params := none }

/-- markTaskDone: one POST request to /tasks/taskId/done, no body. -/
def markTaskDone (taskId : Int) : SimpleReq Unit Unit :=
  { path := "/tasks/" ++ toString taskId ++ "/done", method := "POST", body := none
    params := none }

/-- markTaskUndone: one POST request to /tasks/taskId/undone, no body. -/
def markTaskUndone (taskId : Int) : SimpleReq Unit Unit :=
  { path := "/tasks/" ++ toString taskId ++ "/undone", method := "POST", body := none
    params := none }

/-- getTaskAssignees: one GET request to /tasks/taskId/assignees. -/
def getTaskAssignees (taskId : Int) (params : Option AssigneeListParams) :
    SimpleReq Unit AssigneeListParams :=
  { path := "/tasks/" ++ toString taskId ++ "/assignees", method := "GET", body := none
    params := params }

/-- getTaskComments: one GET request to /tasks/taskId/comments. -/
def getTaskComments (taskId : Int) : SimpleReq Unit Unit :=
  { path := "/tasks/" ++ toString taskId ++ "/comments", method := "GET", body := none
    params := none }

/-- createTaskComment: one PUT request to /tasks/taskId/comments with the
comment payload. -/
def createTaskComment {β : Type} (taskId : Int) (comment : β) : SimpleReq β Unit :=
  { path := "/tasks/" ++ toString taskId ++ "/comments", method := "PUT"
    body := some comment, params := none }

/-- getTaskComment: one GET request to /tasks/taskId/comments/commentId. -/
def getTaskComment (taskId commentId : Int) : SimpleReq Unit Unit :=
  { path := "/tasks/" ++ toString taskId ++ "/comments/" ++ toString commentId
    method := "GET", body := none, params := none }

/-- updateTaskComment: one POST request to /tasks/taskId/comments/commentId
with the comment payload. -/
def updateTaskComment {β : Type} (taskId commentId : Int) (comment : β) : SimpleReq β Unit :=
  { path := "/tasks/" ++ toString taskId ++ "/comments/" ++ toString commentId
    method := "POST", body := some comment, params := none }

/-- deleteTaskComment: one DELETE request to /tasks/taskId/comments/commentId. -/
def deleteTaskComment (taskId commentId : Int) : SimpleReq Unit Unit :=
  { path := "/tasks/" ++ toString taskId ++ "/comments/" ++ toString commentId
    method := "DELETE", body := none, params := none }

/-- createTaskRelation: one PUT request to /tasks/taskId/relations with the
relation payload. -/
def createTaskRelation {β : Type} (taskId : Int) (relation : β) : SimpleReq β Unit :=
  { path := "/tasks/" ++ toString taskId ++ "/relations", method := "PUT"
    body := some relation, params := none }

/-- deleteTaskRelation: one DELETE request to
/tasks/taskId/relations/relationKind/otherTaskId. -/
def deleteTaskRelation (taskId : Int) (relationKind : String) (otherTaskId : Int) :
    SimpleReq Unit Unit :=
  { path := "/tasks/" ++ toString taskId ++ "/relations/" ++ relationKind ++ "/" ++
      toString otherTaskId
    method := "DELETE", body := none, params := none }

/-- bulkUpdateTasks: one POST request to /tasks/bulk with the bulk-operation
payload. -/
def bulkUpdateTasks {β : Type} (operation : β) : SimpleReq β Unit :=
  { path := "/tasks/bulk", method := "POST", body := some operation, params := none }

/-- updateTasksAcrossProjects: one POST request to /tasks/bulk with the
bulk-task payload. -/
def updateTasksAcrossProjects {β : Type} (bulkTask : β) : SimpleReq β Unit :=
  { path := "/tasks/bulk", method := "POST", body := some bulkTask, params := none }

/-- getTaskAttachments: one GET request to /tasks/taskId/attachments. -/
def getTaskAttachments (taskId : Int) (params : Option AttachmentListParams) :
    SimpleReq Unit AttachmentListParams :=
  { path := "/tasks/" ++ toString taskId ++ "/attachments", method := "GET", body := none
    params := params }

/-- getTaskAttachment: one GET request to /tasks/taskId/attachments/attachmentId
(with a blob response type, not modelled further). -/
def getTaskAttachment (taskId attachmentId : Int) : SimpleReq Unit Unit :=
  { path := "/tasks/" ++ toString taskId ++ "/attachments/" ++ toString attachmentId
    method := "GET", body := none, params := none }

/-- deleteTaskAttachment: one DELETE request to
/tasks/taskId/attachments/attachmentId. -/
def deleteTaskAttachment (taskId attachmentId : Int) : SimpleReq Unit Unit :=
  { path := "/tasks/" ++ toString taskId ++ "/attachments/" ++ toString attachmentId
    method := "DELETE", body := none, params := none }

/-- getTaskLabels: one GET request to /tasks/taskId/labels with the caller's
GetTaskLabelsParams (opaque type `γ`, run through convertParams in the
source). -/
def getTaskLabels {γ : Type} (taskId : Int) (params : Option γ) : SimpleReq Unit γ :=
  { path := "/tasks/" ++ toString taskId ++ "/labels", method := "GET", body := none
    params := params }

/-- Modelled from the spec: the shared request builder (src/core/request.js,
absent from the examined sources) serializes query parameters in
form-urlencoded style; spaces in a value are encoded as plus signs, as fixed
by the repository's own test expectations for getAllTasks. Other characters
of the values appearing in the claims need no escaping and are passed
through. -/
def encodeQueryValue (s : String) : String :=
  String.mk (s.data.map (fun c => if c = ' ' then '+' else c))

/-- Modelled from the spec: the key-value pairs of a GetTasksParams struct in
declaration order, skipping absent (undefined) fields, as serialized by the
shared request builder. -/
def paramPairs (p : GetTasksParams) : List (String × String) :=
  (match p.page with
   | some v => [("page", toString v)]
   | none => []) ++
  (match p.per_page with
   | some v => [("per_page", toString v)]
   | none => []) ++
  (match p.s with
   | some v => [("s", v)]
   | none => []) ++
  (match p.sort_by with
   | some v => [("sort_by", v)]
   | none => []) ++
  (match p.order_by with
   | some v => [("order_by", v)]
   | none => []) ++
  (match p.filter with
   | some v => [("filter", v)]
   | none => []) ++
  (match p.filter_include_nulls with
   | some v => [("filter_include_nulls", if v then "true" else "false")]
   | none => [])

/-- Modelled from the spec: the serialized query string of a GetTasksParams
struct, key equals encoded value, joined with ampersands. -/
def serializeQuery (p : GetTasksParams) : String :=
  String.intercalate "&"
    ((paramPairs p).map (fun kv => kv.fst ++ "=" ++ encodeQueryValue kv.snd))

/-- Modelled from the spec: URL construction by the shared request builder,
"base URL + path + serialized query parameters" (spec section 6), here
relative to the base URL: the path followed, when parameters are present, by
a question mark and the serialized query string. -/
def builtUrl (r : SimpleReq Unit GetTasksParams) : String :=
  match r.params with
  | none => r.path
  | some p => if paramPairs p = [] then r.path else r.path ++ "?" ++ serializeQuery p

/-- JavaScript truthiness of `this.token` (a possibly-undefined string):
false for an undefined token and for the empty string. -/
def tokenTruthy : Option String → Bool
  | none => false
  | some t => decide (t ≠ "")

/-- JavaScript `s || fallback` for a string `s`: the fallback when `s` is
empty, otherwise `s` itself. -/
def jsOr (s fallback : String) : String :=
  if s = "" then fallback else s

/-- JavaScript `o.message || fallback` where the message field may be
undefined: the fallback when the field is absent or the empty string. -/
def jsOrOpt (o : Option String) (fallback : String) : String :=
  match o with
  | none => fallback
  | some m => if m = "" then fallback else m

/-- The HTTP response seen by uploadTaskAttachment's direct fetch call: the
`ok` flag (true exactly for 2xx), the status, and the outcome of parsing the
body as JSON (`Except.error` carries the parse error's message). -/
structure FetchResponse where
  ok : Bool
  status : Nat
  jsonResult : Except String JsonBody

/-- The single request uploadTaskAttachment issues via fetch: path, method,
the explicitly set headers, and the multipart form body (opaque type `φ`)
passed as-is. -/
structure UploadRequest (φ : Type) where
  path : String
  method : String
  headers : List (String × String)
  body : φ

/-- uploadTaskAttachment (task.service.ts lines 499-570): bypasses the shared
request primitive and calls fetch directly with method PUT, an explicit
header list holding only the bearer Authorization header (and that only when
the token is truthy), and the FormData body as-is. A non-ok response is
parsed (parse failure replaced by a stock message), then classified:
VikunjaAuthenticationError for status 401/403, plain VikunjaError otherwise.
An ok response's body is parsed as the result; any non-VikunjaError exception
(network failure of fetch, or a JSON parse failure of the ok body) is caught
and rethrown as a plain VikunjaError with status 0. `fetchResult` is the
environment: the outcome of the fetch call, `Except.error` carrying a thrown
network error's message. Returns the method's outcome and the one request
issued. -/
def uploadTaskAttachment {φ : Type} (tok : Option String) (taskId : Int) (formData : φ)
    (fetchResult : Except String FetchResponse) :
    Except VErr JsonBody × UploadRequest φ :=
  let endpoint := "/tasks/" ++ toString taskId ++ "/attachments"
  let headers : List (String × String) :=
    if tokenTruthy tok then [("Authorization", "Bearer " ++ interpToken tok)] else []
  let req : UploadRequest φ :=
    { path := endpoint, method := "PUT", headers := headers, body := formData }
  let result : Except VErr JsonBody :=
    match fetchResult with
    | Except.error netErrMsg =>
      Except.error
        { cls := ErrClass.vikunja
          message := jsOr netErrMsg "Network error"
          endpoint := endpoint
          method := "PUT"
          statusCode := 0
          response := { message := some (jsOr netErrMsg "Network error"), rest := "" } }
    | Except.ok response =>
      if !response.ok then
        let errorResponse : JsonBody :=
          match response.jsonResult with
          | Except.ok errorData => errorData
          | Except.error _ =>
            { message := some ("API request failed with status " ++ toString response.status)
              rest := "" }
        let errorMessage :=
          jsOrOpt errorResponse.message
            ("API request failed with status " ++ toString response.status)
        if response.status == 401 || response.status == 403 then
          Except.error
            { cls := ErrClass.vikunjaAuth
              message := errorMessage
              endpoint := endpoint
              method := "PUT"
              statusCode := response.status
              response := errorResponse }
        else
          Except.error
            { cls := ErrClass.vikunja
              message := errorMessage
              endpoint := endpoint
              method := "PUT"
              statusCode := response.status
              response := errorResponse }
      else
        match response.jsonResult with
        | Except.ok msg => Except.ok msg
        | Except.error parseMsg =>
          Except.error
            { cls := ErrClass.vikunja
              message := jsOr parseMsg "Network error"
              endpoint := endpoint
              method := "PUT"
              statusCode := 0
              response := { message := some (jsOr parseMsg "Network error"), rest := "" } }
  (result, req)

theorem authRetryCond_eq_true (e : VErr) :
    authRetryCond e = true ↔
      isVikunjaError e = true ∧ (e.statusCode = 401 ∨ e.statusCode = 403) := by
  simp [authRetryCond]

theorem authRetryCond_of_primitive {e : VErr} (hp : primitiveError e)
    (hs : e.statusCode = 401 ∨ e.statusCode = 403) : authRetryCond e = true := by
  exact (authRetryCond_eq_true e).mpr ⟨hp.1, hs⟩

theorem status_of_authRetryCond {e : VErr} (h : authRetryCond e = true) :
    e.statusCode = 401 ∨ e.statusCode = 403 :=
  ((authRetryCond_eq_true e).mp h).2

theorem authRetryCond_false_of_status {e : VErr} (h1 : e.statusCode ≠ 401)
    (h2 : e.statusCode ≠ 403) : authRetryCond e = false := by
  simp [authRetryCond, h1, h2]

theorem isAuth_of_primitive {e : VErr} (hp : primitiveError e)
    (h : (e.statusCode = 401 ∨ e.statusCode = 403) ∨ isVikunjaAuthenticationError e = true) :
    isVikunjaAuthenticationError e = true := by
  rcases h with hs | ha
  · exact hp.2.mp hs
  · exact ha

theorem isAuth_false_of_primitive {e : VErr} (hp : primitiveError e)
    (h1 : e.statusCode ≠ 401) (h2 : e.statusCode ≠ 403) :
    isVikunjaAuthenticationError e = false := by
  cases ha : isVikunjaAuthenticationError e
  · rfl
  · rcases hp.2.mpr ha with hs | hs
    · exact absurd hs h1
    · exact absurd hs h2

theorem cascade_ok1 {β α : Type} {req1 req2 req3 : ReqRecord β}
    {finalCheck : VErr → Bool} {mkErr : VErr → VErr}
    {respond : ReqRecord β → Except VErr α} {r : α}
    (h : respond req1 = Except.ok r) :
    cascade req1 req2 req3 finalCheck mkErr respond = (Except.ok r, [req1]) := by
  simp [cascade, h]

theorem cascade_err1 {β α : Type} {req1 req2 req3 : ReqRecord β}
    {finalCheck : VErr → Bool} {mkErr : VErr → VErr}
    {respond : ReqRecord β → Except VErr α} {e : VErr}
    (h : respond req1 = Except.error e) (hc : authRetryCond e = false) :
    cascade req1 req2 req3 finalCheck mkErr respond = (Except.error e, [req1]) := by
  simp [cascade, h, hc]

theorem cascade_ok2 {β α : Type} {req1 req2 req3 : ReqRecord β}
    {finalCheck : VErr → Bool} {mkErr : VErr → VErr}
    {respond : ReqRecord β → Except VErr α} {e1 : VErr} {r : α}
    (h1 : respond req1 = Except.error e1) (hc1 : authRetryCond e1 = true)
    (h2 : respond req2 = Except.ok r) :
    cascade req1 req2 req3 finalCheck mkErr respond = (Except.ok r, [req1, req2]) := by
  simp [cascade, h1, hc1, h2]

theorem cascade_err2 {β α : Type} {req1 req2 req3 : ReqRecord β}
    {finalCheck : VErr → Bool} {mkErr : VErr → VErr}
    {respond : ReqRecord β → Except VErr α} {e1 e2 : VErr}
    (h1 : respond req1 = Except.error e1) (hc1 : authRetryCond e1 = true)
    (h2 : respond req2 = Except.error e2) (hc2 : authRetryCond e2 = false) :
    cascade req1 req2 req3 finalCheck mkErr respond = (Except.error e2, [req1, req2]) := by
  simp [cascade, h1, hc1, h2, hc2]

theorem cascade_ok3 {β α : Type} {req1 req2 req3 : ReqRecord β}
    {finalCheck : VErr → Bool} {mkErr : VErr → VErr}
    {respond : ReqRecord β → Except VErr α} {e1 e2 : VErr} {r : α}
    (h1 : respond req1 = Except.error e1) (hc1 : authRetryCond e1 = true)
    (h2 : respond req2 = Except.error e2) (hc2 : authRetryCond e2 = true)
    (h3 : respond req3 = Except.ok r) :
    cascade req1 req2 req3 finalCheck mkErr respond = (Except.ok r, [req1, req2, req3]) := by
  simp [cascade, h1, hc1, h2, hc2, h3]

theorem cascade_err3_conv {β α : Type} {req1 req2 req3 : ReqRecord β}
    {finalCheck : VErr → Bool} {mkErr : VErr → VErr}
    {respond : ReqRecord β → Except VErr α} {e1 e2 e3 : VErr}
    (h1 : respond req1 = Except.error e1) (hc1 : authRetryCond e1 = true)
    (h2 : respond req2 = Except.error e2) (hc2 : authRetryCond e2 = true)
    (h3 : respond req3 = Except.error e3) (hf : finalCheck e3 = true) :
    cascade req1 req2 req3 finalCheck mkErr respond =
      (Except.error (mkErr e3), [req1, req2, req3]) := by
  simp [cascade, h1, hc1, h2, hc2, h3, hf]

theorem cascade_err3_pass {β α : Type} {req1 req2 req3 : ReqRecord β}
    {finalCheck : VErr → Bool} {mkErr : VErr → VErr}
    {respond : ReqRecord β → Except VErr α} {e1 e2 e3 : VErr}
    (h1 : respond req1 = Except.error e1) (hc1 : authRetryCond e1 = true)
    (h2 : respond req2 = Except.error e2) (hc2 : authRetryCond e2 = true)
    (h3 : respond req3 = Except.error e3) (hf : finalCheck e3 = false) :
    cascade req1 req2 req3 finalCheck mkErr respond =
      (Except.error e3, [req1, req2, req3]) := by
  simp [cascade, h1, hc1, h2, hc2, h3, hf]

theorem cascade_snd_all {β α : Type} {req1 req2 req3 : ReqRecord β}
    {finalCheck : VErr → Bool} {mkErr : VErr → VErr}
    {respond : ReqRecord β → Except VErr α} {e1 e2 : VErr}
    (h1 : respond req1 = Except.error e1) (hc1 : authRetryCond e1 = true)
    (h2 : respond req2 = Except.error e2) (hc2 : authRetryCond e2 = true) :
    (cascade req1 req2 req3 finalCheck mkErr respond).2 = [req1, req2, req3] := by
  cases h3 : respond req3 with
  | ok r => simp [cascade, h1, hc1, h2, hc2, h3]
  | error e3 =>
    cases hf : finalCheck e3 <;> simp [cascade, h1, hc1, h2, hc2, h3, hf]

theorem cascade_mem2 {β α : Type} {req1 req2 req3 : ReqRecord β}
    {finalCheck : VErr → Bool} {mkErr : VErr → VErr}
    {respond : ReqRecord β → Except VErr α}
    (hne : req2 ≠ req1)
    (hmem : req2 ∈ (cascade req1 req2 req3 finalCheck mkErr respond).2) :
    ∃ e1, respond req1 = Except.error e1 ∧ authRetryCond e1 = true := by
  cases h1 : respond req1 with
  | ok r =>
    rw [cascade_ok1 h1] at hmem
    simp at hmem
    exact absurd hmem hne
  | error e1 =>
    cases hc1 : authRetryCond e1 with
    | false =>
      rw [cascade_err1 h1 hc1] at hmem
      simp at hmem
      exact absurd hmem hne
    | true => exact ⟨e1, rfl, hc1⟩

theorem cascade_mem3 {β α : Type} {req1 req2 req3 : ReqRecord β}
    {finalCheck : VErr → Bool} {mkErr : VErr → VErr}
    {respond : ReqRecord β → Except VErr α}
    (hne1 : req3 ≠ req1) (hne2 : req3 ≠ req2)
    (hmem : req3 ∈ (cascade req1 req2 req3 finalCheck mkErr respond).2) :
    ∃ e2, respond req2 = Except.error e2 ∧ authRetryCond e2 = true := by
  cases h1 : respond req1 with
  | ok r =>
    rw [cascade_ok1 h1] at hmem
    simp at hmem
    exact absurd hmem hne1
  | error e1 =>
    cases hc1 : authRetryCond e1 with
    | false =>
      rw [cascade_err1 h1 hc1] at hmem
      simp at hmem
      exact absurd hmem hne1
    | true =>
      cases h2 : respond req2 with
      | ok r =>
        rw [cascade_ok2 h1 hc1 h2] at hmem
        simp at hmem
        rcases hmem with hmem | hmem
        · exact absurd hmem hne1
        · exact absurd hmem hne2
      | error e2 =>
        cases hc2 : authRetryCond e2 with
        | false =>
          rw [cascade_err2 h1 hc1 h2 hc2] at hmem
          simp at hmem
          rcases hmem with hmem | hmem
          · exact absurd hmem hne1
          · exact absurd hmem hne2
        | true => exact ⟨e2, rfl, hc2⟩

/-- C3: for every retried operation (assignUserToTask, bulkAssignUsersToTask,
removeUserFromTask, updateTaskLabels, addLabelToTask, removeLabelFromTask):
if attempt 1 returns success, exactly one request is issued and the cascade
returns that response; if attempt 1 fails with 401 or 403 and attempt 2
succeeds, exactly two requests are issued and the cascade resolves with
attempt 2's response. -/
theorem claim_c3 :
    (∀ (α : Type) (tok : Option String) (taskId userId : Int)
       (respond : ReqRecord UserIdBody → Except VErr α) (r : α) (e1 : VErr),
       (respond (assignReq1 taskId userId) = Except.ok r →
         assignUserToTask tok taskId userId respond =
           (Except.ok r, [assignReq1 taskId userId])) ∧
       (respond (assignReq1 taskId userId) = Except.error e1 → primitiveError e1 →
         (e1.statusCode = 401 ∨ e1.statusCode = 403) →
         respond (assignReq2 tok taskId userId) = Except.ok r →
         assignUserToTask tok taskId userId respond =
           (Except.ok r, [assignReq1 taskId userId, assignReq2 tok taskId userId]))) ∧
    (∀ (β α : Type) (tok : Option String) (taskId : Int) (assignees : β)
       (respond : ReqRecord β → Except VErr α) (r : α) (e1 : VErr),
       (respond (bulkAssignReq1 taskId assignees) = Except.ok r →
         bulkAssignUsersToTask tok taskId assignees respond =
           (Except.ok r, [bulkAssignReq1 taskId assignees])) ∧
       (respond (bulkAssignReq1 taskId assignees) = Except.error e1 → primitiveError e1 →
         (e1.statusCode = 401 ∨ e1.statusCode = 403) →
         respond (bulkAssignReq2 tok taskId assignees) = Except.ok r →
         bulkAssignUsersToTask tok taskId assignees respond =
           (Except.ok r, [bulkAssignReq1 taskId assignees, bulkAssignReq2 tok taskId assignees]))) ∧
    (∀ (α : Type) (tok : Option String) (taskId userId : Int)
       (respond : ReqRecord Unit → Except VErr α) (r : α) (e1 : VErr),
       (respond (removeUserReq1 taskId userId) = Except.ok r →
         removeUserFromTask tok taskId userId respond =
           (Except.ok r, [removeUserReq1 taskId userId])) ∧
       (respond (removeUserReq1 taskId userId) = Except.error e1 → primitiveError e1 →
         (e1.statusCode = 401 ∨ e1.statusCode = 403) →
         respond (removeUserReq2 tok taskId userId) = Except.ok r →
         removeUserFromTask tok taskId userId respond =
           (Except.ok r, [removeUserReq1 taskId userId, removeUserReq2 tok taskId userId]))) ∧
    (∀ (β α : Type) (tok : Option String) (taskId : Int) (labels : β)
       (respond : ReqRecord β → Except VErr α) (r : α) (e1 : VErr),
       (respond (updateLabelsReq1 taskId labels) = Except.ok r →
         updateTaskLabels tok taskId labels respond =
           (Except.ok r, [updateLabelsReq1 taskId labels])) ∧
       (respond (updateLabelsReq1 taskId labels) = Except.error e1 → primitiveError e1 →
         (e1.statusCode = 401 ∨ e1.statusCode = 403) →
         respond (updateLabelsReq2 tok taskId labels) = Except.ok r →
         updateTaskLabels tok taskId labels respond =
           (Except.ok r, [updateLabelsReq1 taskId labels, updateLabelsReq2 tok taskId labels]))) ∧
    (∀ (β α : Type) (tok : Option String) (taskId : Int) (labelTask : β)
       (respond : ReqRecord β → Except VErr α) (r : α) (e1 : VErr),
       (respond (addLabelReq1 taskId labelTask) = Except.ok r →
         addLabelToTask tok taskId labelTask respond =
           (Except.ok r, [addLabelReq1 taskId labelTask])) ∧
       (respond (addLabelReq1 taskId labelTask) = Except.error e1 → primitiveError e1 →
         (e1.statusCode = 401 ∨ e1.statusCode = 403) →
         respond (addLabelReq2 tok taskId labelTask) = Except.ok r →
         addLabelToTask tok taskId labelTask respond =
           (Except.ok r, [addLabelReq1 taskId labelTask, addLabelReq2 tok taskId labelTask]))) ∧
    (∀ (α : Type) (tok : Option String) (taskId labelId : Int)
       (respond : ReqRecord Unit → Except VErr α) (r : α) (e1 : VErr),
       (respond (removeLabelReq1 taskId labelId) = Except.ok r →
         removeLabelFromTask tok taskId labelId respond =
           (Except.ok r, [removeLabelReq1 taskId labelId])) ∧
       (respond (removeLabelReq1 taskId labelId) = Except.error e1 → primitiveError e1 →
         (e1.statusCode = 401 ∨ e1.statusCode = 403) →
         respond (removeLabelReq2 tok taskId labelId) = Except.ok r →
         removeLabelFromTask tok taskId labelId respond =
           (Except.ok r, [removeLabelReq1 taskId labelId, removeLabelReq2 tok taskId labelId]))) := by
  refine ⟨?_, ?_, ?_, ?_, ?_, ?_⟩ <;>
    intros <;>
    refine ⟨fun h => cascade_ok1 h, fun h1 hp hs h2 => ?_⟩ <;>
    exact cascade_ok2 h1 (authRetryCond_of_primitive hp hs) h2

/-- Concrete instance of claim C3's second scenario: an authentication
failure of attempt 1 followed by a successful attempt 2 resolves the
assignee cascade with exactly two issued requests. -/
def c3wErr : VErr :=
  { cls := ErrClass.vikunjaAuth, message := "denied", endpoint := "/tasks/3/assignees"
    method := "PUT", statusCode := 401, response := { message := none, rest := "" } }

/-- Environment for the C3 witness: attempt 1 (no headers option) is rejected
with 401, any retry succeeds. -/
def c3wRespond : ReqRecord UserIdBody → Except VErr Unit :=
  fun r => if r.headersOpt = none then Except.error c3wErr else Except.ok ()

/-- Witness for C3 at a concrete input. -/
theorem claim_c3_witness :
    (c3wRespond (assignReq1 3 4) = Except.error c3wErr ∧ primitiveError c3wErr ∧
      c3wErr.statusCode = 401 ∧ c3wRespond (assignReq2 (some "t") 3 4) = Except.ok ()) ∧
    assignUserToTask (some "t") 3 4 c3wRespond =
      (Except.ok (), [assignReq1 3 4, assignReq2 (some "t") 3 4]) := by
  refine ⟨⟨rfl, by decide, rfl, rfl⟩, ?_⟩
  exact (claim_c3.1 Unit (some "t") 3 4 c3wRespond () c3wErr).2 rfl (by decide)
    (Or.inl rfl) rfl

/-- C2: for every retried operation and every attempt, an error whose status
is neither 401 nor 403 stops the cascade at that attempt and is propagated to
the caller unchanged; in particular a non-auth failure of attempt 1 results
in exactly one issued request and the original error. -/
theorem claim_c2 :
    (∀ (α : Type) (tok : Option String) (taskId userId : Int)
       (respond : ReqRecord UserIdBody → Except VErr α) (e1 e2 e3 : VErr),
       (respond (assignReq1 taskId userId) = Except.error e1 →
         e1.statusCode ≠ 401 → e1.statusCode ≠ 403 →
         assignUserToTask tok taskId userId respond =
           (Except.error e1, [assignReq1 taskId userId])) ∧
       (respond (assignReq1 taskId userId) = Except.error e1 → primitiveError e1 →
         (e1.statusCode = 401 ∨ e1.statusCode = 403) →
         respond (assignReq2 tok taskId userId) = Except.error e2 →
         e2.statusCode ≠ 401 → e2.statusCode ≠ 403 →
         assignUserToTask tok taskId userId respond =
           (Except.error e2, [assignReq1 taskId userId, assignReq2 tok taskId userId])) ∧
       (respond (assignReq1 taskId userId) = Except.error e1 → primitiveError e1 →
         (e1.statusCode = 401 ∨ e1.statusCode = 403) →
         respond (assignReq2 tok taskId userId) = Except.error e2 → primitiveError e2 →
         (e2.statusCode = 401 ∨ e2.statusCode = 403) →
         respond (assignReq3 tok taskId userId) = Except.error e3 → primitiveError e3 →
         e3.statusCode ≠ 401 → e3.statusCode ≠ 403 →
         assignUserToTask tok taskId userId respond =
           (Except.error e3,
            [assignReq1 taskId userId, assignReq2 tok taskId userId,
             assignReq3 tok taskId userId]))) ∧
    (∀ (β α : Type) (tok : Option String) (taskId : Int) (assignees : β)
       (respond : ReqRecord β → Except VErr α) (e1 e2 e3 : VErr),
       (respond (bulkAssignReq1 taskId assignees) = Except.error e1 →
         e1.statusCode ≠ 401 → e1.statusCode ≠ 403 →
         bulkAssignUsersToTask tok taskId assignees respond =
           (Except.error e1, [bulkAssignReq1 taskId assignees])) ∧
       (respond (bulkAssignReq1 taskId assignees) = Except.error e1 → primitiveError e1 →
         (e1.statusCode = 401 ∨ e1.statusCode = 403) →
         respond (bulkAssignReq2 tok taskId assignees) = Except.error e2 →
         e2.statusCode ≠ 401 → e2.statusCode ≠ 403 →
         bulkAssignUsersToTask tok taskId assignees respond =
           (Except.error e2,
            [bulkAssignReq1 taskId assignees, bulkAssignReq2 tok taskId assignees])) ∧
       (respond (bulkAssignReq1 taskId assignees) = Except.error e1 → primitiveError e1 →
         (e1.statusCode = 401 ∨ e1.statusCode = 403) →
         respond (bulkAssignReq2 tok taskId assignees) = Except.error e2 → primitiveError e2 →
         (e2.statusCode = 401 ∨ e2.statusCode = 403) →
         respond (bulkAssignReq3 tok taskId assignees) = Except.error e3 → primitiveError e3 →
         e3.statusCode ≠ 401 → e3.statusCode ≠ 403 →
         bulkAssignUsersToTask tok taskId assignees respond =
           (Except.error e3,
            [bulkAssignReq1 taskId assignees, bulkAssignReq2 tok taskId assignees,
             bulkAssignReq3 tok taskId assignees]))) ∧
    (∀ (α : Type) (tok : Option String) (taskId userId : Int)
       (respond : ReqRecord Unit → Except VErr α) (e1 e2 e3 : VErr),
       (respond (removeUserReq1 taskId userId) = Except.error e1 →
         e1.statusCode ≠ 401 → e1.statusCode ≠ 403 →
         removeUserFromTask tok taskId userId respond =
           (Except.error e1, [removeUserReq1 taskId userId])) ∧
       (respond (removeUserReq1 taskId userId) = Except.error e1 → primitiveError e1 →
         (e1.statusCode = 401 ∨ e1.statusCode = 403) →
         respond (removeUserReq2 tok taskId userId) = Except.error e2 →
         e2.statusCode ≠ 401 → e2.statusCode ≠ 403 →
         removeUserFromTask tok taskId userId respond =
           (Except.error e2, [removeUserReq1 taskId userId, removeUserReq2 tok taskId userId])) ∧
       (respond (removeUserReq1 taskId userId) = Except.error e1 → primitiveError e1 →
         (e1.statusCode = 401 ∨ e1.statusCode = 403) →
         respond (removeUserReq2 tok taskId userId) = Except.error e2 → primitiveError e2 →
         (e2.statusCode = 401 ∨ e2.statusCode = 403) →
         respond (removeUserReq3 tok taskId userId) = Except.error e3 → primitiveError e3 →
         e3.statusCode ≠ 401 → e3.statusCode ≠ 403 →
         removeUserFromTask tok taskId userId respond =
           (Except.error e3,
            [removeUserReq1 taskId userId, removeUserReq2 tok taskId userId,
             removeUserReq3 tok taskId userId]))) ∧
    (∀ (β α : Type) (tok : Option String) (taskId : Int) (labels : β)
       (respond : ReqRecord β → Except VErr α) (e1 e2 e3 : VErr),
       (respond (updateLabelsReq1 taskId labels) = Except.error e1 →
         e1.statusCode ≠ 401 → e1.statusCode ≠ 403 →
         updateTaskLabels tok taskId labels respond =
           (Except.error e1, [updateLabelsReq1 taskId labels])) ∧
       (respond (updateLabelsReq1 taskId labels) = Except.error e1 → primitiveError e1 →
         (e1.statusCode = 401 ∨ e1.statusCode = 403) →
         respond (updateLabelsReq2 tok taskId labels) = Except.error e2 →
         e2.statusCode ≠ 401 → e2.statusCode ≠ 403 →
         updateTaskLabels tok taskId labels respond =
           (Except.error e2,
            [updateLabelsReq1 taskId labels, updateLabelsReq2 tok taskId labels])) ∧
       (respond (updateLabelsReq1 taskId labels) = Except.error e1 → primitiveError e1 →
         (e1.statusCode = 401 ∨ e1.statusCode = 403) →
         respond (updateLabelsReq2 tok taskId labels) = Except.error e2 → primitiveError e2 →
         (e2.statusCode = 401 ∨ e2.statusCode = 403) →
         respond (updateLabelsReq3 tok taskId labels) = Except.error e3 → primitiveError e3 →
         e3.statusCode ≠ 401 → e3.statusCode ≠ 403 →
         updateTaskLabels tok taskId labels respond =
           (Except.error e3,
            [updateLabelsReq1 taskId labels, updateLabelsReq2 tok taskId labels,
             updateLabelsReq3 tok taskId labels]))) ∧
    (∀ (β α : Type) (tok : Option String) (taskId : Int) (labelTask : β)
       (respond : ReqRecord β → Except VErr α) (e1 e2 e3 : VErr),
       (respond (addLabelReq1 taskId labelTask) = Except.error e1 →
         e1.statusCode ≠ 401 → e1.statusCode ≠ 403 →
         addLabelToTask tok taskId labelTask respond =
           (Except.error e1, [addLabelReq1 taskId labelTask])) ∧
       (respond (addLabelReq1 taskId labelTask) = Except.error e1 → primitiveError e1 →
         (e1.statusCode = 401 ∨ e1.statusCode = 403) →
         respond (addLabelReq2 tok taskId labelTask) = Except.error e2 →
         e2.statusCode ≠ 401 → e2.statusCode ≠ 403 →
         addLabelToTask tok taskId labelTask respond =
           (Except.error e2,
            [addLabelReq1 taskId labelTask, addLabelReq2 tok taskId labelTask])) ∧
       (respond (addLabelReq1 taskId labelTask) = Except.error e1 → primitiveError e1 →
         (e1.statusCode = 401 ∨ e1.statusCode = 403) →
         respond (addLabelReq2 tok taskId labelTask) = Except.error e2 → primitiveError e2 →
         (e2.statusCode = 401 ∨ e2.statusCode = 403) →
         respond (addLabelReq3 tok taskId labelTask) = Except.error e3 → primitiveError e3 →
         e3.statusCode ≠ 401 → e3.statusCode ≠ 403 →
         addLabelToTask tok taskId labelTask respond =
           (Except.error e3,
            [addLabelReq1 taskId labelTask, addLabelReq2 tok taskId labelTask,
             addLabelReq3 tok taskId labelTask]))) ∧
    (∀ (α : Type) (tok : Option String) (taskId labelId : Int)
       (respond : ReqRecord Unit → Except VErr α) (e1 e2 e3 : VErr),
       (respond (removeLabelReq1 taskId labelId) = Except.error e1 →
         e1.statusCode ≠ 401 → e1.statusCode ≠ 403 →
         removeLabelFromTask tok taskId labelId respond =
           (Except.error e1, [removeLabelReq1 taskId labelId])) ∧
       (respond (removeLabelReq1 taskId labelId) = Except.error e1 → primitiveError e1 →
         (e1.statusCode = 401 ∨ e1.statusCode = 403) →
         respond (removeLabelReq2 tok taskId labelId) = Except.error e2 →
         e2.statusCode ≠ 401 → e2.statusCode ≠ 403 →
         removeLabelFromTask tok taskId labelId respond =
           (Except.error e2,
            [removeLabelReq1 taskId labelId, removeLabelReq2 tok taskId labelId])) ∧
       (respond (removeLabelReq1 taskId labelId) = Except.error e1 → primitiveError e1 →
         (e1.statusCode = 401 ∨ e1.statusCode = 403) →
         respond (removeLabelReq2 tok taskId labelId) = Except.error e2 → primitiveError e2 →
         (e2.statusCode = 401 ∨ e2.statusCode = 403) →
         respond (removeLabelReq3 tok taskId labelId) = Except.error e3 → primitiveError e3 →
         e3.statusCode ≠ 401 → e3.statusCode ≠ 403 →
         removeLabelFromTask tok taskId labelId respond =
           (Except.error e3,
            [removeLabelReq1 taskId labelId, removeLabelReq2 tok taskId labelId,
             removeLabelReq3 tok taskId labelId]))) := by
  refine ⟨?_, ?_, ?_, ?_, ?_, ?_⟩ <;>
    intros <;>
    refine ⟨fun h1 hn1 hn2 => cascade_err1 h1 (authRetryCond_false_of_status hn1 hn2),
      fun h1 hp1 hs1 h2 hn1 hn2 =>
        cascade_err2 h1 (authRetryCond_of_primitive hp1 hs1) h2
          (authRetryCond_false_of_status hn1 hn2),
      fun h1 hp1 hs1 h2 hp2 hs2 h3 hp3 hn1 hn2 =>
        cascade_err3_pass h1 (authRetryCond_of_primitive hp1 hs1) h2
          (authRetryCond_of_primitive hp2 hs2) h3 ?_⟩ <;>
    first
      | exact isAuth_false_of_primitive hp3 hn1 hn2
      | exact authRetryCond_false_of_status hn1 hn2

/-- Error used by the C2 witness: a server-side 500 on attempt 1. -/
def c2wErr : VErr :=
  { cls := ErrClass.vikunja, message := "boom", endpoint := "/tasks/3/assignees"
    method := "PUT", statusCode := 500, response := { message := none, rest := "" } }

/-- Environment for the C2 witness: every request fails with the 500 error. -/
def c2wRespond : ReqRecord UserIdBody → Except VErr Unit :=
  fun _ => Except.error c2wErr

/-- Witness for C2 at a concrete input: a 500 on attempt 1 of
assignUserToTask short-circuits the cascade after one request. -/
theorem claim_c2_witness :
    (c2wRespond (assignReq1 3 4) = Except.error c2wErr ∧
      c2wErr.statusCode ≠ 401 ∧ c2wErr.statusCode ≠ 403) ∧
    assignUserToTask (some "t") 3 4 c2wRespond =
      (Except.error c2wErr, [assignReq1 3 4]) := by
  refine ⟨⟨rfl, by decide, by decide⟩, ?_⟩
  exact (claim_c2.1 Unit (some "t") 3 4 c2wRespond c2wErr c2wErr c2wErr).1 rfl
    (by decide) (by decide)

theorem authRetryCond_of_primitive_disj {e : VErr} (hp : primitiveError e)
    (hd : (e.statusCode = 401 ∨ e.statusCode = 403) ∨ isVikunjaAuthenticationError e = true) :
    authRetryCond e = true := by
  rcases hd with hs | ha
  · exact authRetryCond_of_primitive hp hs
  · exact authRetryCond_of_primitive hp (hp.2.mpr ha)

/-- C1: for every retried operation, if attempt 3 fails with status 401 or
403 (equivalently, with an authentication-class error), the cascade raises
the dedicated subtype of its endpoint family — AssigneeAuthenticationError
for the assignee operations, LabelAuthenticationError for the label
operations — embedding the final underlying error's message, endpoint,
method, status code and raw response body. -/
theorem claim_c1 :
    (∀ (α : Type) (tok : Option String) (taskId userId : Int)
       (respond : ReqRecord UserIdBody → Except VErr α) (e1 e2 e3 : VErr),
       respond (assignReq1 taskId userId) = Except.error e1 → primitiveError e1 →
       (e1.statusCode = 401 ∨ e1.statusCode = 403) →
       respond (assignReq2 tok taskId userId) = Except.error e2 → primitiveError e2 →
       (e2.statusCode = 401 ∨ e2.statusCode = 403) →
       respond (assignReq3 tok taskId userId) = Except.error e3 → primitiveError e3 →
       ((e3.statusCode = 401 ∨ e3.statusCode = 403) ∨
         isVikunjaAuthenticationError e3 = true) →
       assignUserToTask tok taskId userId respond =
         (Except.error (mkAssigneeAuthError e3),
          [assignReq1 taskId userId, assignReq2 tok taskId userId,
           assignReq3 tok taskId userId]) ∧
       (mkAssigneeAuthError e3).cls = ErrClass.assigneeAuth ∧
       (mkAssigneeAuthError e3).message = assigneeAuthPreamble ++ e3.message ∧
       (mkAssigneeAuthError e3).endpoint = e3.endpoint ∧
       (mkAssigneeAuthError e3).method = e3.method ∧
       (mkAssigneeAuthError e3).statusCode = e3.statusCode ∧
       (mkAssigneeAuthError e3).response = e3.response) ∧
    (∀ (β α : Type) (tok : Option String) (taskId : Int) (assignees : β)
       (respond : ReqRecord β → Except VErr α) (e1 e2 e3 : VErr),
       respond (bulkAssignReq1 taskId assignees) = Except.error e1 → primitiveError e1 →
       (e1.statusCode = 401 ∨ e1.statusCode = 403) →
       respond (bulkAssignReq2 tok taskId assignees) = Except.error e2 → primitiveError e2 →
       (e2.statusCode = 401 ∨ e2.statusCode = 403) →
       respond (bulkAssignReq3 tok taskId assignees) = Except.error e3 → primitiveError e3 →
       ((e3.statusCode = 401 ∨ e3.statusCode = 403) ∨
         isVikunjaAuthenticationError e3 = true) →
       bulkAssignUsersToTask tok taskId assignees respond =
         (Except.error (mkAssigneeAuthError e3),
          [bulkAssignReq1 taskId assignees, bulkAssignReq2 tok taskId assignees,
           bulkAssignReq3 tok taskId assignees]) ∧
       (mkAssigneeAuthError e3).cls = ErrClass.assigneeAuth ∧
       (mkAssigneeAuthError e3).message = assigneeAuthPreamble ++ e3.message ∧
       (mkAssigneeAuthError e3).endpoint = e3.endpoint ∧
       (mkAssigneeAuthError e3).method = e3.method ∧
       (mkAssigneeAuthError e3).statusCode = e3.statusCode ∧
       (mkAssigneeAuthError e3).response = e3.response) ∧
    (∀ (α : Type) (tok : Option String) (taskId userId : Int)
       (respond : ReqRecord Unit → Except VErr α) (e1 e2 e3 : VErr),
       respond (removeUserReq1 taskId userId) = Except.error e1 → primitiveError e1 →
       (e1.statusCode = 401 ∨ e1.statusCode = 403) →
       respond (removeUserReq2 tok taskId userId) = Except.error e2 → primitiveError e2 →
       (e2.statusCode = 401 ∨ e2.statusCode = 403) →
       respond (removeUserReq3 tok taskId userId) = Except.error e3 → primitiveError e3 →
       ((e3.statusCode = 401 ∨ e3.statusCode = 403) ∨
         isVikunjaAuthenticationError e3 = true) →
       removeUserFromTask tok taskId userId respond =
         (Except.error (mkAssigneeAuthError e3),
          [removeUserReq1 taskId userId, removeUserReq2 tok taskId userId,
           removeUserReq3 tok taskId userId]) ∧
       (mkAssigneeAuthError e3).cls = ErrClass.assigneeAuth ∧
       (mkAssigneeAuthError e3).message = assigneeAuthPreamble ++ e3.message ∧
       (mkAssigneeAuthError e3).endpoint = e3.endpoint ∧
       (mkAssigneeAuthError e3).method = e3.method ∧
       (mkAssigneeAuthError e3).statusCode = e3.statusCode ∧
       (mkAssigneeAuthError e3).response = e3.response) ∧
    (∀ (β α : Type) (tok : Option String) (taskId : Int) (labels : β)
       (respond : ReqRecord β → Except VErr α) (e1 e2 e3 : VErr),
       respond (updateLabelsReq1 taskId labels) = Except.error e1 → primitiveError e1 →
       (e1.statusCode = 401 ∨ e1.statusCode = 403) →
       respond (updateLabelsReq2 tok taskId labels) = Except.error e2 → primitiveError e2 →
       (e2.statusCode = 401 ∨ e2.statusCode = 403) →
       respond (updateLabelsReq3 tok taskId labels) = Except.error e3 → primitiveError e3 →
       ((e3.statusCode = 401 ∨ e3.statusCode = 403) ∨
         isVikunjaAuthenticationError e3 = true) →
       updateTaskLabels tok taskId labels respond =
         (Except.error (mkLabelAuthError e3),
          [updateLabelsReq1 taskId labels, updateLabelsReq2 tok taskId labels,
           updateLabelsReq3 tok taskId labels]) ∧
       (mkLabelAuthError e3).cls = ErrClass.labelAuth ∧
       (mkLabelAuthError e3).message = labelAuthPreamble ++ e3.message ∧
       (mkLabelAuthError e3).endpoint = e3.endpoint ∧
       (mkLabelAuthError e3).method = e3.method ∧
       (mkLabelAuthError e3).statusCode = e3.statusCode ∧
       (mkLabelAuthError e3).response = e3.response) ∧
    (∀ (β α : Type) (tok : Option String) (taskId : Int) (labelTask : β)
       (respond : ReqRecord β → Except VErr α) (e1 e2 e3 : VErr),
       respond (addLabelReq1 taskId labelTask) = Except.error e1 → primitiveError e1 →
       (e1.statusCode = 401 ∨ e1.statusCode = 403) →
       respond (addLabelReq2 tok taskId labelTask) = Except.error e2 → primitiveError e2 →
       (e2.statusCode = 401 ∨ e2.statusCode = 403) →
       respond (addLabelReq3 tok taskId labelTask) = Except.error e3 → primitiveError e3 →
       ((e3.statusCode = 401 ∨ e3.statusCode = 403) ∨
         isVikunjaAuthenticationError e3 = true) →
       addLabelToTask tok taskId labelTask respond =
         (Except.error (mkLabelAuthError e3),
          [addLabelReq1 taskId labelTask, addLabelReq2 tok taskId labelTask,
           addLabelReq3 tok taskId labelTask]) ∧
       (mkLabelAuthError e3).cls = ErrClass.labelAuth ∧
       (mkLabelAuthError e3).message = labelAuthPreamble ++ e3.message ∧
       (mkLabelAuthError e3).endpoint = e3.endpoint ∧
       (mkLabelAuthError e3).method = e3.method ∧
       (mkLabelAuthError e3).statusCode = e3.statusCode ∧
       (mkLabelAuthError e3).response = e3.response) ∧
    (∀ (α : Type) (tok : Option String) (taskId labelId : Int)
       (respond : ReqRecord Unit → Except VErr α) (e1 e2 e3 : VErr),
       respond (removeLabelReq1 taskId labelId) = Except.error e1 → primitiveError e1 →
       (e1.statusCode = 401 ∨ e1.statusCode = 403) →
       respond (removeLabelReq2 tok taskId labelId) = Except.error e2 → primitiveError e2 →
       (e2.statusCode = 401 ∨ e2.statusCode = 403) →
       respond (removeLabelReq3 tok taskId labelId) = Except.error e3 → primitiveError e3 →
       ((e3.statusCode = 401 ∨ e3.statusCode = 403) ∨
         isVikunjaAuthenticationError e3 = true) →
       removeLabelFromTask tok taskId labelId respond =
         (Except.error (mkLabelAuthError e3),
          [removeLabelReq1 taskId labelId, removeLabelReq2 tok taskId labelId,
           removeLabelReq3 tok taskId labelId]) ∧
       (mkLabelAuthError e3).cls = ErrClass.labelAuth ∧
       (mkLabelAuthError e3).message = labelAuthPreamble ++ e3.message ∧
       (mkLabelAuthError e3).endpoint = e3.endpoint ∧
       (mkLabelAuthError e3).method = e3.method ∧
       (mkLabelAuthError e3).statusCode = e3.statusCode ∧
       (mkLabelAuthError e3).response = e3.response) := by
  refine ⟨?_, ?_, ?_, ?_, ?_, ?_⟩
  · intro _ tok taskId userId respond e1 e2 e3 h1 hp1 hs1 h2 hp2 hs2 h3 hp3 hd
    exact ⟨cascade_err3_conv h1 (authRetryCond_of_primitive hp1 hs1) h2
      (authRetryCond_of_primitive hp2 hs2) h3 (isAuth_of_primitive hp3 hd),
      rfl, rfl, rfl, rfl, rfl, rfl⟩
  · intro _ _ tok taskId assignees respond e1 e2 e3 h1 hp1 hs1 h2 hp2 hs2 h3 hp3 hd
    exact ⟨cascade_err3_conv h1 (authRetryCond_of_primitive hp1 hs1) h2
      (authRetryCond_of_primitive hp2 hs2) h3 (isAuth_of_primitive hp3 hd),
      rfl, rfl, rfl, rfl, rfl, rfl⟩
  · intro _ tok taskId userId respond e1 e2 e3 h1 hp1 hs1 h2 hp2 hs2 h3 hp3 hd
    exact ⟨cascade_err3_conv h1 (authRetryCond_of_primitive hp1 hs1) h2
      (authRetryCond_of_primitive hp2 hs2) h3 (isAuth_of_primitive hp3 hd),
      rfl, rfl, rfl, rfl, rfl, rfl⟩
  · intro _ _ tok taskId labels respond e1 e2 e3 h1 hp1 hs1 h2 hp2 hs2 h3 hp3 hd
    exact ⟨cascade_err3_conv h1 (authRetryCond_of_primitive hp1 hs1) h2
      (authRetryCond_of_primitive hp2 hs2) h3 (isAuth_of_primitive hp3 hd),
      rfl, rfl, rfl, rfl, rfl, rfl⟩
  · intro _ _ tok taskId labelTask respond e1 e2 e3 h1 hp1 hs1 h2 hp2 hs2 h3 hp3 hd
    exact ⟨cascade_err3_conv h1 (authRetryCond_of_primitive hp1 hs1) h2
      (authRetryCond_of_primitive hp2 hs2) h3 (authRetryCond_of_primitive_disj hp3 hd),
      rfl, rfl, rfl, rfl, rfl, rfl⟩
  · intro _ tok taskId labelId respond e1 e2 e3 h1 hp1 hs1 h2 hp2 hs2 h3 hp3 hd
    exact ⟨cascade_err3_conv h1 (authRetryCond_of_primitive hp1 hs1) h2
      (authRetryCond_of_primitive hp2 hs2) h3 (authRetryCond_of_primitive_disj hp3 hd),
      rfl, rfl, rfl, rfl, rfl, rfl⟩

/-- Error used by the C1 witness: an authentication rejection with status
403 returned to every attempt. -/
def c1wErr : VErr :=
  { cls := ErrClass.vikunjaAuth, message := "forbidden", endpoint := "/tasks/7/labels"
    method := "PUT", statusCode := 403, response := { message := some "no", rest := "" } }

/-- Environment for the C1 witness: every request fails with the 403 error. -/
def c1wRespond : ReqRecord Unit → Except VErr Unit :=
  fun _ => Except.error c1wErr

/-- Witness for C1 at a concrete input: an exhausted addLabelToTask cascade
raises LabelAuthenticationError embedding the final error's details. -/
theorem claim_c1_witness :
    (c1wRespond (addLabelReq1 7 ()) = Except.error c1wErr ∧ primitiveError c1wErr ∧
      c1wErr.statusCode = 403) ∧
    addLabelToTask (some "t") 7 () c1wRespond =
      (Except.error (mkLabelAuthError c1wErr),
       [addLabelReq1 7 (), addLabelReq2 (some "t") 7 (), addLabelReq3 (some "t") 7 ()]) ∧
    (mkLabelAuthError c1wErr).cls = ErrClass.labelAuth ∧
    (mkLabelAuthError c1wErr).message = labelAuthPreamble ++ c1wErr.message ∧
    (mkLabelAuthError c1wErr).endpoint = c1wErr.endpoint ∧
    (mkLabelAuthError c1wErr).method = c1wErr.method ∧
    (mkLabelAuthError c1wErr).statusCode = c1wErr.statusCode ∧
    (mkLabelAuthError c1wErr).response = c1wErr.response := by
  refine ⟨⟨rfl, by decide, rfl⟩, ?_⟩
  exact (claim_c1.2.2.2.2.1 Unit Unit (some "t") 7 () c1wRespond c1wErr c1wErr c1wErr)
    rfl (by decide) (Or.inr rfl) rfl (by decide) (Or.inr rfl) rfl (by decide)
    (Or.inl (Or.inr rfl))

/-- C4: for every retried operation, the three attempts use identical HTTP
method, path and body; attempt 2, issued only after a 401/403 failure of
attempt 1, replaces the auth header with the alternate X-API-Token header
carrying the raw token without a Bearer prefix; attempt 3, issued only after
a 401/403 failure of attempt 2, uses the standard header name in lowercase
casing with the Bearer prefix. -/
theorem claim_c4 :
    (∀ (tok : Option String) (taskId userId : Int),
      (assignReq2 tok taskId userId).method = (assignReq1 taskId userId).method ∧
      (assignReq2 tok taskId userId).path = (assignReq1 taskId userId).path ∧
      (assignReq2 tok taskId userId).body = (assignReq1 taskId userId).body ∧
      (assignReq3 tok taskId userId).method = (assignReq1 taskId userId).method ∧
      (assignReq3 tok taskId userId).path = (assignReq1 taskId userId).path ∧
      (assignReq3 tok taskId userId).body = (assignReq1 taskId userId).body ∧
      (assignReq2 tok taskId userId).headersOpt = some [("X-API-Token", tokenOrEmpty tok)] ∧
      (∀ t, tok = some t → tokenOrEmpty tok = t) ∧
      (assignReq3 tok taskId userId).headersOpt =
        some [("authorization", "Bearer " ++ interpToken tok)] ∧
      (∀ (α : Type) (respond : ReqRecord UserIdBody → Except VErr α),
        assignReq2 tok taskId userId ∈ (assignUserToTask tok taskId userId respond).2 →
        ∃ e1, respond (assignReq1 taskId userId) = Except.error e1 ∧
          (e1.statusCode = 401 ∨ e1.statusCode = 403)) ∧
      (∀ (α : Type) (respond : ReqRecord UserIdBody → Except VErr α),
        assignReq3 tok taskId userId ∈ (assignUserToTask tok taskId userId respond).2 →
        ∃ e2, respond (assignReq2 tok taskId userId) = Except.error e2 ∧
          (e2.statusCode = 401 ∨ e2.statusCode = 403))) ∧
    (∀ (β : Type) (tok : Option String) (taskId : Int) (assignees : β),
      (bulkAssignReq2 tok taskId assignees).method = (bulkAssignReq1 taskId assignees).method ∧
      (bulkAssignReq2 tok taskId assignees).path = (bulkAssignReq1 taskId assignees).path ∧
      (bulkAssignReq2 tok taskId assignees).body = (bulkAssignReq1 taskId assignees).body ∧
      (bulkAssignReq3 tok taskId assignees).method = (bulkAssignReq1 taskId assignees).method ∧
      (bulkAssignReq3 tok taskId assignees).path = (bulkAssignReq1 taskId assignees).path ∧
      (bulkAssignReq3 tok taskId assignees).body = (bulkAssignReq1 taskId assignees).body ∧
      (bulkAssignReq2 tok taskId assignees).headersOpt =
        some [("X-API-Token", tokenOrEmpty tok)] ∧
      (∀ t, tok = some t → tokenOrEmpty tok = t) ∧
      (bulkAssignReq3 tok taskId assignees).headersOpt =
        some [("authorization", "Bearer " ++ interpToken tok)] ∧
      (∀ (α : Type) (respond : ReqRecord β → Except VErr α),
        bulkAssignReq2 tok taskId assignees ∈
          (bulkAssignUsersToTask tok taskId assignees respond).2 →
        ∃ e1, respond (bulkAssignReq1 taskId assignees) = Except.error e1 ∧
          (e1.statusCode = 401 ∨ e1.statusCode = 403)) ∧
      (∀ (α : Type) (respond : ReqRecord β → Except VErr α),
        bulkAssignReq3 tok taskId assignees ∈
          (bulkAssignUsersToTask tok taskId assignees respond).2 →
        ∃ e2, respond (bulkAssignReq2 tok taskId assignees) = Except.error e2 ∧
          (e2.statusCode = 401 ∨ e2.statusCode = 403))) ∧
    (∀ (tok : Option String) (taskId userId : Int),
      (removeUserReq2 tok taskId userId).method = (removeUserReq1 taskId userId).method ∧
      (removeUserReq2 tok taskId userId).path = (removeUserReq1 taskId userId).path ∧
      (removeUserReq2 tok taskId userId).body = (removeUserReq1 taskId userId).body ∧
      (removeUserReq3 tok taskId userId).method = (removeUserReq1 taskId userId).method ∧
      (removeUserReq3 tok taskId userId).path = (removeUserReq1 taskId userId).path ∧
      (removeUserReq3 tok taskId userId).body = (removeUserReq1 taskId userId).body ∧
      (removeUserReq2 tok taskId userId).headersOpt =
        some [("X-API-Token", tokenOrEmpty tok)] ∧
      (∀ t, tok = some t → tokenOrEmpty tok = t) ∧
      (removeUserReq3 tok taskId userId).headersOpt =
        some [("authorization", "Bearer " ++ interpToken tok)] ∧
      (∀ (α : Type) (respond : ReqRecord Unit → Except VErr α),
        removeUserReq2 tok taskId userId ∈ (removeUserFromTask tok taskId userId respond).2 →
        ∃ e1, respond (removeUserReq1 taskId userId) = Except.error e1 ∧
          (e1.statusCode = 401 ∨ e1.statusCode = 403)) ∧
      (∀ (α : Type) (respond : ReqRecord Unit → Except VErr α),
        removeUserReq3 tok taskId userId ∈ (removeUserFromTask tok taskId userId respond).2 →
        ∃ e2, respond (removeUserReq2 tok taskId userId) = Except.error e2 ∧
          (e2.statusCode = 401 ∨ e2.statusCode = 403))) ∧
    (∀ (β : Type) (tok : Option String) (taskId : Int) (labels : β),
      (updateLabelsReq2 tok taskId labels).method = (updateLabelsReq1 taskId labels).method ∧
      (updateLabelsReq2 tok taskId labels).path = (updateLabelsReq1 taskId labels).path ∧
      (updateLabelsReq2 tok taskId labels).body = (updateLabelsReq1 taskId labels).body ∧
      (updateLabelsReq3 tok taskId labels).method = (updateLabelsReq1 taskId labels).method ∧
      (updateLabelsReq3 tok taskId labels).path = (updateLabelsReq1 taskId labels).path ∧
      (updateLabelsReq3 tok taskId labels).body = (updateLabelsReq1 taskId labels).body ∧
      (updateLabelsReq2 tok taskId labels).headersOpt =
        some [("X-API-Token", tokenOrEmpty tok)] ∧
      (∀ t, tok = some t → tokenOrEmpty tok = t) ∧
      (updateLabelsReq3 tok taskId labels).headersOpt =
        some [("authorization", "Bearer " ++ interpToken tok)] ∧
      (∀ (α : Type) (respond : ReqRecord β → Except VErr α),
        updateLabelsReq2 tok taskId labels ∈ (updateTaskLabels tok taskId labels respond).2 →
        ∃ e1, respond (updateLabelsReq1 taskId labels) = Except.error e1 ∧
          (e1.statusCode = 401 ∨ e1.statusCode = 403)) ∧
      (∀ (α : Type) (respond : ReqRecord β → Except VErr α),
        updateLabelsReq3 tok taskId labels ∈ (updateTaskLabels tok taskId labels respond).2 →
        ∃ e2, respond (updateLabelsReq2 tok taskId labels) = Except.error e2 ∧
          (e2.statusCode = 401 ∨ e2.statusCode = 403))) ∧
    (∀ (β : Type) (tok : Option String) (taskId : Int) (labelTask : β),
      (addLabelReq2 tok taskId labelTask).method = (addLabelReq1 taskId labelTask).method ∧
      (addLabelReq2 tok taskId labelTask).path = (addLabelReq1 taskId labelTask).path ∧
      (addLabelReq2 tok taskId labelTask).body = (addLabelReq1 taskId labelTask).body ∧
      (addLabelReq3 tok taskId labelTask).method = (addLabelReq1 taskId labelTask).method ∧
      (addLabelReq3 tok taskId labelTask).path = (addLabelReq1 taskId labelTask).path ∧
      (addLabelReq3 tok taskId labelTask).body = (addLabelReq1 taskId labelTask).body ∧
      (addLabelReq2 tok taskId labelTask).headersOpt =
        some [("X-API-Token", tokenOrEmpty tok)] ∧
      (∀ t, tok = some t → tokenOrEmpty tok = t) ∧
      (addLabelReq3 tok taskId labelTask).headersOpt =
        some [("authorization", "Bearer " ++ interpToken tok)] ∧
      (∀ (α : Type) (respond : ReqRecord β → Except VErr α),
        addLabelReq2 tok taskId labelTask ∈ (addLabelToTask tok taskId labelTask respond).2 →
        ∃ e1, respond (addLabelReq1 taskId labelTask) = Except.error e1 ∧
          (e1.statusCode = 401 ∨ e1.statusCode = 403)) ∧
      (∀ (α : Type) (respond : ReqRecord β → Except VErr α),
        addLabelReq3 tok taskId labelTask ∈ (addLabelToTask tok taskId labelTask respond).2 →
        ∃ e2, respond (addLabelReq2 tok taskId labelTask) = Except.error e2 ∧
          (e2.statusCode = 401 ∨ e2.statusCode = 403))) ∧
    (∀ (tok : Option String) (taskId labelId : Int),
      (removeLabelReq2 tok taskId labelId).method = (removeLabelReq1 taskId labelId).method ∧
      (removeLabelReq2 tok taskId labelId).path = (removeLabelReq1 taskId labelId).path ∧
      (removeLabelReq2 tok taskId labelId).body = (removeLabelReq1 taskId labelId).body ∧
      (removeLabelReq3 tok taskId labelId).method = (removeLabelReq1 taskId labelId).method ∧
      (removeLabelReq3 tok taskId labelId).path = (removeLabelReq1 taskId labelId).path ∧
      (removeLabelReq3 tok taskId labelId).body = (removeLabelReq1 taskId labelId).body ∧
      (removeLabelReq2 tok taskId labelId).headersOpt =
        some [("X-API-Token", tokenOrEmpty tok)] ∧
      (∀ t, tok = some t → tokenOrEmpty tok = t) ∧
      (removeLabelReq3 tok taskId labelId).headersOpt =
        some [("authorization", "Bearer " ++ interpToken tok)] ∧
      (∀ (α : Type) (respond : ReqRecord Unit → Except VErr α),
        removeLabelReq2 tok taskId labelId ∈ (removeLabelFromTask tok taskId labelId respond).2 →
        ∃ e1, respond (removeLabelReq1 taskId labelId) = Except.error e1 ∧
          (e1.statusCode = 401 ∨ e1.statusCode = 403)) ∧
      (∀ (α : Type) (respond : ReqRecord Unit → Except VErr α),
        removeLabelReq3 tok taskId labelId ∈ (removeLabelFromTask tok taskId labelId respond).2 →
        ∃ e2, respond (removeLabelReq2 tok taskId labelId) = Except.error e2 ∧
          (e2.statusCode = 401 ∨ e2.statusCode = 403))) := by
  refine ⟨?_, ?_, ?_, ?_, ?_, ?_⟩
  · intro tok taskId userId
    refine ⟨rfl, rfl, rfl, rfl, rfl, rfl, rfl, ?_, rfl, ?_, ?_⟩
    · intro t ht
      subst ht
      by_cases h : t = "" <;> simp [tokenOrEmpty, h]
    · intro α respond hmem
      rcases cascade_mem2 (by simp [assignReq1, assignReq2]) hmem with ⟨e1, he, hc⟩
      exact ⟨e1, he, status_of_authRetryCond hc⟩
    · intro α respond hmem
      rcases cascade_mem3 (by simp [assignReq1, assignReq3])
        (by simp [assignReq2, assignReq3]) hmem with ⟨e2, he, hc⟩
      exact ⟨e2, he, status_of_authRetryCond hc⟩
  · intro β tok taskId assignees
    refine ⟨rfl, rfl, rfl, rfl, rfl, rfl, rfl, ?_, rfl, ?_, ?_⟩
    · intro t ht
      subst ht
      by_cases h : t = "" <;> simp [tokenOrEmpty, h]
    · intro α respond hmem
      rcases cascade_mem2 (by simp [bulkAssignReq1, bulkAssignReq2]) hmem with ⟨e1, he, hc⟩
      exact ⟨e1, he, status_of_authRetryCond hc⟩
    · intro α respond hmem
      rcases cascade_mem3 (by simp [bulkAssignReq1, bulkAssignReq3])
        (by simp [bulkAssignReq2, bulkAssignReq3]) hmem with ⟨e2, he, hc⟩
      exact ⟨e2, he, status_of_authRetryCond hc⟩
  · intro tok taskId userId
    refine ⟨rfl, rfl, rfl, rfl, rfl, rfl, rfl, ?_, rfl, ?_, ?_⟩
    · intro t ht
      subst ht
      by_cases h : t = "" <;> simp [tokenOrEmpty, h]
    · intro α respond hmem
      rcases cascade_mem2 (by simp [removeUserReq1, removeUserReq2]) hmem with ⟨e1, he, hc⟩
      exact ⟨e1, he, status_of_authRetryCond hc⟩
    · intro α respond hmem
      rcases cascade_mem3 (by simp [removeUserReq1, removeUserReq3])
        (by simp [removeUserReq2, removeUserReq3]) hmem with ⟨e2, he, hc⟩
      exact ⟨e2, he, status_of_authRetryCond hc⟩
  · intro β tok taskId labels
    refine ⟨rfl, rfl, rfl, rfl, rfl, rfl, rfl, ?_, rfl, ?_, ?_⟩
    · intro t ht
      subst ht
      by_cases h : t = "" <;> simp [tokenOrEmpty, h]
    · intro α respond hmem
      rcases cascade_mem2 (by simp [updateLabelsReq1, updateLabelsReq2]) hmem with ⟨e1, he, hc⟩
      exact ⟨e1, he, status_of_authRetryCond hc⟩
    · intro α respond hmem
      rcases cascade_mem3 (by simp [updateLabelsReq1, updateLabelsReq3])
        (by simp [updateLabelsReq2, updateLabelsReq3]) hmem with ⟨e2, he, hc⟩
      exact ⟨e2, he, status_of_authRetryCond hc⟩
  · intro β tok taskId labelTask
    refine ⟨rfl, rfl, rfl, rfl, rfl, rfl, rfl, ?_, rfl, ?_, ?_⟩
    · intro t ht
      subst ht
      by_cases h : t = "" <;> simp [tokenOrEmpty, h]
    · intro α respond hmem
      rcases cascade_mem2 (by simp [addLabelReq1, addLabelReq2]) hmem with ⟨e1, he, hc⟩
      exact ⟨e1, he, status_of_authRetryCond hc⟩
    · intro α respond hmem
      rcases cascade_mem3 (by simp [addLabelReq1, addLabelReq3])
        (by simp [addLabelReq2, addLabelReq3]) hmem with ⟨e2, he, hc⟩
      exact ⟨e2, he, status_of_authRetryCond hc⟩
  · intro tok taskId labelId
    refine ⟨rfl, rfl, rfl, rfl, rfl, rfl, rfl, ?_, rfl, ?_, ?_⟩
    · intro t ht
      subst ht
      by_cases h : t = "" <;> simp [tokenOrEmpty, h]
    · intro α respond hmem
      rcases cascade_mem2 (by simp [removeLabelReq1, removeLabelReq2]) hmem with ⟨e1, he, hc⟩
      exact ⟨e1, he, status_of_authRetryCond hc⟩
    · intro α respond hmem
      rcases cascade_mem3 (by simp [removeLabelReq1, removeLabelReq3])
        (by simp [removeLabelReq2, removeLabelReq3]) hmem with ⟨e2, he, hc⟩
      exact ⟨e2, he, status_of_authRetryCond hc⟩

/-- Error used by the C4 witness. -/
def c4wErr : VErr :=
  { cls := ErrClass.vikunjaAuth, message := "nope", endpoint := "/tasks/2/labels/6"
    method := "DELETE", statusCode := 401, response := { message := none, rest := "" } }

/-- Environment for the C4 witness: every request fails with the 401 error,
so all three attempts are issued. -/
def c4wRespond : ReqRecord Unit → Except VErr Unit :=
  fun _ => Except.error c4wErr

/-- Witness for C4 at a concrete input: the removeLabelFromTask attempts
share method, path and body, attempt 2 carries the raw token under
X-API-Token, attempt 3 carries the bearer-prefixed token under lowercase
authorization, and the issued attempt 2 implies a 401/403 failure of
attempt 1. -/
theorem claim_c4_witness :
    (removeLabelReq2 (some "tk") 2 6).headersOpt = some [("X-API-Token", "tk")] ∧
    (removeLabelReq3 (some "tk") 2 6).headersOpt =
      some [("authorization", "Bearer tk")] ∧
    (removeLabelReq2 (some "tk") 2 6).path = (removeLabelReq1 2 6).path ∧
    (removeLabelReq2 (some "tk") 2 6) ∈ (removeLabelFromTask (some "tk") 2 6 c4wRespond).2 ∧
    (∃ e1, c4wRespond (removeLabelReq1 2 6) = Except.error e1 ∧
      (e1.statusCode = 401 ∨ e1.statusCode = 403)) := by
  have hmem : (removeLabelReq2 (some "tk") 2 6) ∈
      (removeLabelFromTask (some "tk") 2 6 c4wRespond).2 := by decide
  refine ⟨by decide, by decide, rfl, hmem, ?_⟩
  exact ((claim_c4.2.2.2.2.2 (some "tk") 2 6).2.2.2.2.2.2.2.2.2.1 Unit c4wRespond) hmem

theorem string_append_assoc (a b c : String) : a ++ b ++ c = a ++ (b ++ c) := by
  apply String.ext
  simp [String.data_append, List.append_assoc]

/-- C5: assignUserToTask with task 5 and user 9, when every attempt fails
with status 403, issues attempt 1 as PUT /tasks/5/assignees with body
user_id 9, attempt 2 with the same path and body under the alternate
X-API-Token header, attempt 3 with the same path and body under the
lowercase bearer header, and raises an AssigneeAuthenticationError whose
message contains "Assignee operation failed due to authentication issue" and
whose embedded status code is 403. -/
theorem claim_c5 :
    ∀ (α : Type) (tok : Option String) (respond : ReqRecord UserIdBody → Except VErr α)
      (e1 e2 e3 : VErr),
      respond (assignReq1 5 9) = Except.error e1 → primitiveError e1 →
      e1.statusCode = 403 →
      respond (assignReq2 tok 5 9) = Except.error e2 → primitiveError e2 →
      e2.statusCode = 403 →
      respond (assignReq3 tok 5 9) = Except.error e3 → primitiveError e3 →
      e3.statusCode = 403 →
      assignReq1 5 9 =
        { path := "/tasks/5/assignees", method := "PUT", body := some { user_id := 9 }
          headersOpt := none } ∧
      assignReq2 tok 5 9 =
        { path := "/tasks/5/assignees", method := "PUT", body := some { user_id := 9 }
          headersOpt := some [("X-API-Token", tokenOrEmpty tok)] } ∧
      assignReq3 tok 5 9 =
        { path := "/tasks/5/assignees", method := "PUT", body := some { user_id := 9 }
          headersOpt := some [("authorization", "Bearer " ++ interpToken tok)] } ∧
      assignUserToTask tok 5 9 respond =
        (Except.error (mkAssigneeAuthError e3),
         [assignReq1 5 9, assignReq2 tok 5 9, assignReq3 tok 5 9]) ∧
      (∃ rest, (mkAssigneeAuthError e3).message =
        "Assignee operation failed due to authentication issue" ++ rest) ∧
      (mkAssigneeAuthError e3).statusCode = 403 ∧
      (mkAssigneeAuthError e3).cls = ErrClass.assigneeAuth := by
  intro α tok respond e1 e2 e3 h1 hp1 hs1 h2 hp2 hs2 h3 hp3 hs3
  refine ⟨rfl, rfl, rfl, ?_, ?_, ?_, rfl⟩
  · exact cascade_err3_conv h1 (authRetryCond_of_primitive hp1 (Or.inr hs1)) h2
      (authRetryCond_of_primitive hp2 (Or.inr hs2)) h3
      (isAuth_of_primitive hp3 (Or.inl (Or.inr hs3)))
  · refine ⟨". This may occur even with valid tokens. Original error: " ++ e3.message, ?_⟩
    have hsplit : assigneeAuthPreamble =
        "Assignee operation failed due to authentication issue" ++
          ". This may occur even with valid tokens. Original error: " := by decide
    calc (mkAssigneeAuthError e3).message
        = assigneeAuthPreamble ++ e3.message := rfl
      _ = "Assignee operation failed due to authentication issue" ++
            ". This may occur even with valid tokens. Original error: " ++ e3.message := by
          rw [hsplit]
      _ = "Assignee operation failed due to authentication issue" ++
            (". This may occur even with valid tokens. Original error: " ++ e3.message) := by
          rw [string_append_assoc]
  · simpa [mkAssigneeAuthError] using hs3

/-- Error used by the C5 witness: a 403 authentication rejection. -/
def c5wErr : VErr :=
  { cls := ErrClass.vikunjaAuth, message := "forbidden", endpoint := "/tasks/5/assignees"
    method := "PUT", statusCode := 403, response := { message := none, rest := "" } }

/-- Environment for the C5 witness: every request fails with the 403 error. -/
def c5wRespond : ReqRecord UserIdBody → Except VErr Unit :=
  fun _ => Except.error c5wErr

/-- Witness for C5 at a concrete input. -/
theorem claim_c5_witness :
    (c5wRespond (assignReq1 5 9) = Except.error c5wErr ∧ primitiveError c5wErr ∧
      c5wErr.statusCode = 403) ∧
    assignUserToTask (some "tk") 5 9 c5wRespond =
      (Except.error (mkAssigneeAuthError c5wErr),
       [assignReq1 5 9, assignReq2 (some "tk") 5 9, assignReq3 (some "tk") 5 9]) ∧
    (∃ rest, (mkAssigneeAuthError c5wErr).message =
      "Assignee operation failed due to authentication issue" ++ rest) ∧
    (mkAssigneeAuthError c5wErr).statusCode = 403 ∧
    (mkAssigneeAuthError c5wErr).cls = ErrClass.assigneeAuth := by
  refine ⟨⟨rfl, by decide, rfl⟩, ?_⟩
  have h := claim_c5 Unit (some "tk") c5wRespond c5wErr c5wErr c5wErr rfl (by decide) rfl
    rfl (by decide) rfl rfl (by decide) rfl
  exact ⟨h.2.2.2.1, h.2.2.2.2.1, h.2.2.2.2.2.1, h.2.2.2.2.2.2⟩

/-- C9: for every retried operation, when the client has no token the
cascade still issues all attempts: the transcript after two authentication
failures holds all three requests whatever attempt 3 returns, attempt 2
carries the alternate X-API-Token header with the empty string as value, and
attempt 3 carries a lowercase authorization header whose value is the Bearer
prefix followed by the interpolation of the absent token, i.e. the literal
text "Bearer undefined". -/
theorem claim_c9 :
    (∀ (α : Type) (taskId userId : Int)
       (respond : ReqRecord UserIdBody → Except VErr α) (e1 e2 : VErr),
       respond (assignReq1 taskId userId) = Except.error e1 → primitiveError e1 →
       (e1.statusCode = 401 ∨ e1.statusCode = 403) →
       respond (assignReq2 none taskId userId) = Except.error e2 → primitiveError e2 →
       (e2.statusCode = 401 ∨ e2.statusCode = 403) →
       (assignUserToTask none taskId userId respond).2 =
         [assignReq1 taskId userId, assignReq2 none taskId userId,
          assignReq3 none taskId userId] ∧
       (assignReq2 none taskId userId).headersOpt = some [("X-API-Token", "")] ∧
       (assignReq3 none taskId userId).headersOpt =
         some [("authorization", "Bearer undefined")]) ∧
    (∀ (β α : Type) (taskId : Int) (assignees : β)
       (respond : ReqRecord β → Except VErr α) (e1 e2 : VErr),
       respond (bulkAssignReq1 taskId assignees) = Except.error e1 → primitiveError e1 →
       (e1.statusCode = 401 ∨ e1.statusCode = 403) →
       respond (bulkAssignReq2 none taskId assignees) = Except.error e2 → primitiveError e2 →
       (e2.statusCode = 401 ∨ e2.statusCode = 403) →
       (bulkAssignUsersToTask none taskId assignees respond).2 =
         [bulkAssignReq1 taskId assignees, bulkAssignReq2 none taskId assignees,
          bulkAssignReq3 none taskId assignees] ∧
       (bulkAssignReq2 none taskId assignees).headersOpt = some [("X-API-Token", "")] ∧
       (bulkAssignReq3 none taskId assignees).headersOpt =
         some [("authorization", "Bearer undefined")]) ∧
    (∀ (α : Type) (taskId userId : Int)
       (respond : ReqRecord Unit → Except VErr α) (e1 e2 : VErr),
       respond (removeUserReq1 taskId userId) = Except.error e1 → primitiveError e1 →
       (e1.statusCode = 401 ∨ e1.statusCode = 403) →
       respond (removeUserReq2 none taskId userId) = Except.error e2 → primitiveError e2 →
       (e2.statusCode = 401 ∨ e2.statusCode = 403) →
       (removeUserFromTask none taskId userId respond).2 =
         [removeUserReq1 taskId userId, removeUserReq2 none taskId userId,
          removeUserReq3 none taskId userId] ∧
       (removeUserReq2 none taskId userId).headersOpt = some [("X-API-Token", "")] ∧
       (removeUserReq3 none taskId userId).headersOpt =
         some [("authorization", "Bearer undefined")]) ∧
    (∀ (β α : Type) (taskId : Int) (labels : β)
       (respond : ReqRecord β → Except VErr α) (e1 e2 : VErr),
       respond (updateLabelsReq1 taskId labels) = Except.error e1 → primitiveError e1 →
       (e1.statusCode = 401 ∨ e1.statusCode = 403) →
       respond (updateLabelsReq2 none taskId labels) = Except.error e2 → primitiveError e2 →
       (e2.statusCode = 401 ∨ e2.statusCode = 403) →
       (updateTaskLabels none taskId labels respond).2 =
         [updateLabelsReq1 taskId labels, updateLabelsReq2 none taskId labels,
          updateLabelsReq3 none taskId labels] ∧
       (updateLabelsReq2 none taskId labels).headersOpt = some [("X-API-Token", "")] ∧
       (updateLabelsReq3 none taskId labels).headersOpt =
         some [("authorization", "Bearer undefined")]) ∧
    (∀ (β α : Type) (taskId : Int) (labelTask : β)
       (respond : ReqRecord β → Except VErr α) (e1 e2 : VErr),
       respond (addLabelReq1 taskId labelTask) = Except.error e1 → primitiveError e1 →
       (e1.statusCode = 401 ∨ e1.statusCode = 403) →
       respond (addLabelReq2 none taskId labelTask) = Except.error e2 → primitiveError e2 →
       (e2.statusCode = 401 ∨ e2.statusCode = 403) →
       (addLabelToTask none taskId labelTask respond).2 =
         [addLabelReq1 taskId labelTask, addLabelReq2 none taskId labelTask,
          addLabelReq3 none taskId labelTask] ∧
       (addLabelReq2 none taskId labelTask).headersOpt = some [("X-API-Token", "")] ∧
       (addLabelReq3 none taskId labelTask).headersOpt =
         some [("authorization", "Bearer undefined")]) ∧
    (∀ (α : Type) (taskId labelId : Int)
       (respond : ReqRecord Unit → Except VErr α) (e1 e2 : VErr),
       respond (removeLabelReq1 taskId labelId) = Except.error e1 → primitiveError e1 →
       (e1.statusCode = 401 ∨ e1.statusCode = 403) →
       respond (removeLabelReq2 none taskId labelId) = Except.error e2 → primitiveError e2 →
       (e2.statusCode = 401 ∨ e2.statusCode = 403) →
       (removeLabelFromTask none taskId labelId respond).2 =
         [removeLabelReq1 taskId labelId, removeLabelReq2 none taskId labelId,
          removeLabelReq3 none taskId labelId] ∧
       (removeLabelReq2 none taskId labelId).headersOpt = some [("X-API-Token", "")] ∧
       (removeLabelReq3 none taskId labelId).headersOpt =
         some [("authorization", "Bearer undefined")]) := by
  refine ⟨?_, ?_, ?_, ?_, ?_, ?_⟩
  · intro _ taskId userId respond e1 e2 h1 hp1 hs1 h2 hp2 hs2
    exact ⟨cascade_snd_all h1 (authRetryCond_of_primitive hp1 hs1) h2
      (authRetryCond_of_primitive hp2 hs2), rfl, rfl⟩
  · intro _ _ taskId assignees respond e1 e2 h1 hp1 hs1 h2 hp2 hs2
    exact ⟨cascade_snd_all h1 (authRetryCond_of_primitive hp1 hs1) h2
      (authRetryCond_of_primitive hp2 hs2), rfl, rfl⟩
  · intro _ taskId userId respond e1 e2 h1 hp1 hs1 h2 hp2 hs2
    exact ⟨cascade_snd_all h1 (authRetryCond_of_primitive hp1 hs1) h2
      (authRetryCond_of_primitive hp2 hs2), rfl, rfl⟩
  · intro _ _ taskId labels respond e1 e2 h1 hp1 hs1 h2 hp2 hs2
    exact ⟨cascade_snd_all h1 (authRetryCond_of_primitive hp1 hs1) h2
      (authRetryCond_of_primitive hp2 hs2), rfl, rfl⟩
  · intro _ _ taskId labelTask respond e1 e2 h1 hp1 hs1 h2 hp2 hs2
    exact ⟨cascade_snd_all h1 (authRetryCond_of_primitive hp1 hs1) h2
      (authRetryCond_of_primitive hp2 hs2), rfl, rfl⟩
  · intro _ taskId labelId respond e1 e2 h1 hp1 hs1 h2 hp2 hs2
    exact ⟨cascade_snd_all h1 (authRetryCond_of_primitive hp1 hs1) h2
      (authRetryCond_of_primitive hp2 hs2), rfl, rfl⟩

/-- Error used by the C9 witness: a 401 authentication rejection. -/
def c9wErr : VErr :=
  { cls := ErrClass.vikunjaAuth, message := "unauthorized", endpoint := "/tasks/1/assignees"
    method := "PUT", statusCode := 401, response := { message := none, rest := "" } }

/-- Environment for the C9 witness: every request fails with the 401 error. -/
def c9wRespond : ReqRecord UserIdBody → Except VErr Unit :=
  fun _ => Except.error c9wErr

/-- Witness for C9 at a concrete input: with no token configured the
assignee cascade still issues all three attempts, with the empty X-API-Token
value on attempt 2 and the literal "Bearer undefined" on attempt 3. -/
theorem claim_c9_witness :
    (c9wRespond (assignReq1 1 2) = Except.error c9wErr ∧ primitiveError c9wErr ∧
      c9wErr.statusCode = 401) ∧
    (assignUserToTask none 1 2 c9wRespond).2 =
      [assignReq1 1 2, assignReq2 none 1 2, assignReq3 none 1 2] ∧
    (assignReq2 none 1 2).headersOpt = some [("X-API-Token", "")] ∧
    (assignReq3 none 1 2).headersOpt = some [("authorization", "Bearer undefined")] := by
  refine ⟨⟨rfl, by decide, rfl⟩, ?_⟩
  exact claim_c9.1 Unit 1 2 c9wRespond c9wErr c9wErr rfl (by decide) (Or.inl rfl) rfl
    (by decide) (Or.inl rfl)

/-- The concrete parameter struct of claim C7. -/
def c7Params : GetTasksParams :=
  { page := some 1, per_page := some 10, s := some "x", sort_by := some "title"
    order_by := some "asc", filter := some "done equals false"
    filter_include_nulls := none }

/-- C7: getAllTasks with page 1, per_page 10, s "x", sort_by "title",
order_by "asc" and filter "done equals false" issues exactly one GET request
to /tasks carrying those parameters verbatim, whose built URL is
/tasks?page=1&per_page=10&s=x&sort_by=title&order_by=asc&filter=done+equals+false.
The method is a single call of the shared request primitive, so the one
SimpleReq it denotes is the only request issued. -/
theorem claim_c7 :
    getAllTasks (some c7Params) =
      { path := "/tasks", method := "GET", body := none, params := some c7Params } ∧
    builtUrl (getAllTasks (some c7Params)) =
      "/tasks?page=1&per_page=10&s=x&sort_by=title&order_by=asc&filter=done+equals+false" := by
  exact ⟨rfl, by decide⟩

/-- C8: every non-retried method uses the HTTP method fixed by the remote
API's REST convention — PUT for the create-style operations (createTask to
/projects/projectId/tasks, createTaskComment, createTaskRelation), POST for
update, bulk and done-state-toggle operations (updateTask, updateTaskComment,
bulkUpdateTasks, updateTasksAcrossProjects, markTaskDone, markTaskUndone),
GET for reads and DELETE for removals — each against its fixed endpoint path
template. -/
theorem claim_c8 :
    ∀ (β : Type) (projectId taskId commentId attachmentId otherTaskId : Int)
      (relationKind : String) (body : β) (tp : Option GetTasksParams)
      (ap : Option AssigneeListParams) (atp : Option AttachmentListParams),
      createTask projectId body =
        { path := "/projects/" ++ toString projectId ++ "/tasks", method := "PUT"
          body := some body, params := none } ∧
      createTaskComment taskId body =
        { path := "/tasks/" ++ toString taskId ++ "/comments", method := "PUT"
          body := some body, params := none } ∧
      createTaskRelation taskId body =
        { path := "/tasks/" ++ toString taskId ++ "/relations", method := "PUT"
          body := some body, params := none } ∧
      updateTask taskId body =
        { path := "/tasks/" ++ toString taskId, method := "POST"
          body := some body, params := none } ∧
      updateTaskComment taskId commentId body =
        { path := "/tasks/" ++ toString taskId ++ "/comments/" ++ toString commentId
          method := "POST", body := some body, params := none } ∧
      bulkUpdateTasks body =
        { path := "/tasks/bulk", method := "POST", body := some body, params := none } ∧
      updateTasksAcrossProjects body =
        { path := "/tasks/bulk", method := "POST", body := some body, params := none } ∧
      markTaskDone taskId =
        { path := "/tasks/" ++ toString taskId ++ "/done", method := "POST"
          body := none, params := none } ∧
      markTaskUndone taskId =
        { path := "/tasks/" ++ toString taskId ++ "/undone", method := "POST"
          body := none, params := none } ∧
      getAllTasks tp =
        { path := "/tasks", method := "GET", body := none, params := tp } ∧
      getProjectTasks projectId tp =
        { path := "/projects/" ++ toString projectId ++ "/tasks", method := "GET"
          body := none, params := tp } ∧
      getTask taskId =
        { path := "/tasks/" ++ toString taskId, method := "GET"
          body := none, params := none } ∧
      getTaskAssignees taskId ap =
        { path := "/tasks/" ++ toString taskId ++ "/assignees", method := "GET"
          body := none, params := ap } ∧
      getTaskComments taskId =
        { path := "/tasks/" ++ toString taskId ++ "/comments", method := "GET"
          body := none, params := none } ∧
      getTaskComment taskId commentId =
        { path := "/tasks/" ++ toString taskId ++ "/comments/" ++ toString commentId
          method := "GET", body := none, params := none } ∧
      getTaskAttachments taskId atp =
        { path := "/tasks/" ++ toString taskId ++ "/attachments", method := "GET"
          body := none, params := atp } ∧
      getTaskAttachment taskId attachmentId =
        { path := "/tasks/" ++ toString taskId ++ "/attachments/" ++ toString attachmentId
          method := "GET", body := none, params := none } ∧
      getTaskLabels taskId (none : Option Unit) =
        { path := "/tasks/" ++ toString taskId ++ "/labels", method := "GET"
          body := none, params := none } ∧
      deleteTask taskId =
        { path := "/tasks/" ++ toString taskId, method := "DELETE"
          body := none, params := none } ∧
      deleteTaskComment taskId commentId =
        { path := "/tasks/" ++ toString taskId ++ "/comments/" ++ toString commentId
          method := "DELETE", body := none, params := none } ∧
      deleteTaskRelation taskId relationKind otherTaskId =
        { path := "/tasks/" ++ toString taskId ++ "/relations/" ++ relationKind ++ "/" ++
            toString otherTaskId
          method := "DELETE", body := none, params := none } ∧
      deleteTaskAttachment taskId attachmentId =
        { path := "/tasks/" ++ toString taskId ++ "/attachments/" ++ toString attachmentId
          method := "DELETE", body := none, params := none } := by
  intros
  exact ⟨rfl, rfl, rfl, rfl, rfl, rfl, rfl, rfl, rfl, rfl, rfl, rfl, rfl, rfl, rfl,
    rfl, rfl, rfl, rfl, rfl, rfl, rfl⟩

/-- C6: uploadTaskAttachment issues a single PUT with the multipart form
body as-is, sets no explicit Content-Type header, includes the bearer
Authorization header exactly when a (truthy) token is configured, and
classifies a non-2xx response as VikunjaAuthenticationError for status
401/403 and as plain VikunjaError for any other non-2xx status. -/
theorem claim_c6 :
    ∀ (φ : Type) (tok : Option String) (taskId : Int) (formData : φ)
      (fetchResult : Except String FetchResponse),
      (uploadTaskAttachment tok taskId formData fetchResult).2.method = "PUT" ∧
      (uploadTaskAttachment tok taskId formData fetchResult).2.body = formData ∧
      (uploadTaskAttachment tok taskId formData fetchResult).2.path =
        "/tasks/" ++ toString taskId ++ "/attachments" ∧
      (∀ kv, kv ∈ (uploadTaskAttachment tok taskId formData fetchResult).2.headers →
        kv.1 ≠ "Content-Type") ∧
      (tokenTruthy tok = false →
        (uploadTaskAttachment tok taskId formData fetchResult).2.headers = []) ∧
      (∀ t, tok = some t → t ≠ "" →
        (uploadTaskAttachment tok taskId formData fetchResult).2.headers =
          [("Authorization", "Bearer " ++ t)]) ∧
      (∀ resp : FetchResponse, fetchResult = Except.ok resp → resp.ok = false →
        ((resp.status = 401 ∨ resp.status = 403) →
          ∃ e, (uploadTaskAttachment tok taskId formData fetchResult).1 = Except.error e ∧
            e.cls = ErrClass.vikunjaAuth ∧ e.statusCode = resp.status) ∧
        (resp.status ≠ 401 → resp.status ≠ 403 →
          ∃ e, (uploadTaskAttachment tok taskId formData fetchResult).1 = Except.error e ∧
            e.cls = ErrClass.vikunja ∧ e.statusCode = resp.status)) := by
  intro φ tok taskId formData fetchResult
  refine ⟨rfl, rfl, rfl, ?_, ?_, ?_, ?_⟩
  · intro kv hkv
    cases h : tokenTruthy tok with
    | false =>
      simp [uploadTaskAttachment, h] at hkv
    | true =>
      simp [uploadTaskAttachment, h] at hkv
      subst hkv
      simp
  · intro h
    simp [uploadTaskAttachment, h]
  · intro t ht hne
    subst ht
    have h : tokenTruthy (some t) = true := by
      simp [tokenTruthy, hne]
    simp [uploadTaskAttachment, h, interpToken]
  · intro resp hfe hok
    subst hfe
    constructor
    · intro hs
      rcases hs with hs | hs <;>
        simp [uploadTaskAttachment, hok, hs]
    · intro hn1 hn2
      have hb : (resp.status == 401 || resp.status == 403) = false := by
        simp [hn1, hn2]
      simp [uploadTaskAttachment, hok, hb]

/-- Concrete fetch response for the C6 witness: a 500 with a JSON error
body. -/
def c6wResp : FetchResponse :=
  { ok := false, status := 500
    jsonResult := Except.ok { message := some "boom", rest := "" } }

/-- Witness for C6 at a concrete input: a non-auth non-2xx upload response
yields a plain VikunjaError with the response's status, and the issued
request carries the bearer header for the configured token. -/
theorem claim_c6_witness :
    (c6wResp.ok = false ∧ (500 : Nat) ≠ 401 ∧ (500 : Nat) ≠ 403 ∧ ("tk" : String) ≠ "") ∧
    (uploadTaskAttachment (some "tk") 7 () (Except.ok c6wResp)).2.headers =
      [("Authorization", "Bearer tk")] ∧
    (∃ e, (uploadTaskAttachment (some "tk") 7 () (Except.ok c6wResp)).1 = Except.error e ∧
      e.cls = ErrClass.vikunja ∧ e.statusCode = c6wResp.status) := by
  refine ⟨⟨rfl, by decide, by decide, by decide⟩, ?_, ?_⟩
  · exact (claim_c6 Unit (some "tk") 7 () (Except.ok c6wResp)).2.2.2.2.2.1 "tk" rfl
      (by decide)
  · exact (((claim_c6 Unit (some "tk") 7 () (Except.ok c6wResp)).2.2.2.2.2.2 c6wResp
      rfl rfl).2 (by decide) (by decide))

/-- C10: when uploadTaskAttachment receives a successful (ok) HTTP response
whose body fails to parse as JSON, the parse failure is caught by the outer
handler and rethrown as a base VikunjaError with status code 0 carrying the
parse error's message — reported like a network-class failure even though an
HTTP response arrived. -/
theorem claim_c10 :
    ∀ (φ : Type) (tok : Option String) (taskId : Int) (formData : φ)
      (resp : FetchResponse) (parseMsg : String),
      resp.ok = true → resp.jsonResult = Except.error parseMsg → parseMsg ≠ "" →
      (uploadTaskAttachment tok taskId formData (Except.ok resp)).1 =
        Except.error
          { cls := ErrClass.vikunja
            message := parseMsg
            endpoint := "/tasks/" ++ toString taskId ++ "/attachments"
            method := "PUT"
            statusCode := 0
            response := { message := some parseMsg, rest := "" } } := by
  intro φ tok taskId formData resp parseMsg hok hj hne
  simp [uploadTaskAttachment, hok, hj, jsOr, hne]

/-- Concrete fetch response for the C10 witness: a 200 whose body is not
JSON. -/
def c10wResp : FetchResponse :=
  { ok := true, status := 200, jsonResult := Except.error "Invalid JSON" }

/-- Witness for C10 at a concrete input. -/
theorem claim_c10_witness :
    (c10wResp.ok = true ∧ c10wResp.jsonResult = Except.error "Invalid JSON" ∧
      ("Invalid JSON" : String) ≠ "") ∧
    (uploadTaskAttachment (some "tk") 7 () (Except.ok c10wResp)).1 =
      Except.error
        { cls := ErrClass.vikunja
          message := "Invalid JSON"
          endpoint := "/tasks/7/attachments"
          method := "PUT"
          statusCode := 0
          response := { message := some "Invalid JSON", rest := "" } } := by
  refine ⟨⟨rfl, rfl, by decide⟩, ?_⟩
  exact claim_c10 Unit (some "tk") 7 () c10wResp "Invalid JSON" rfl rfl (by decide)

end NodeVikunja
